import Mathlib

/-!
Shallow embedding of the equity-valuation-model core (DCF, Three-Statement,
LBO, Comps, Precedent Transactions, M&A) over exact rational arithmetic,
together with theorems settling the specification claims.

JavaScript numbers are modelled as `ℚ`; `a?.b ?? d` is `Option.getD`;
the JS `x || d` default (which treats `0` and `undefined` alike as falsy)
is modelled by `jsOr` / `jsOrIdx`; in-place mutation of the caller's
`CompanyData` arrays is made explicit by returning the updated snapshot.
-/

namespace EquityVal

/-- Income statement for one fiscal period (numeric fields used by the models). -/
structure FinancialStatement where
  revenue : ℚ
  grossProfit : ℚ
  operatingIncome : ℚ
  netIncome : ℚ
  ebitda : ℚ
deriving Repr, DecidableEq

/-- Cash-flow statement for one fiscal period. -/
structure CashFlowStatement where
  operatingCashFlow : ℚ
  capitalExpenditure : ℚ
  freeCashFlow : ℚ
  depreciation : ℚ
deriving Repr, DecidableEq

/-- Balance sheet for one fiscal period. -/
structure BalanceSheet where
  totalAssets : ℚ
  totalLiabilities : ℚ
  totalEquity : ℚ
  totalDebt : ℚ
  cashAndEquivalents : ℚ
deriving Repr, DecidableEq

/-- Company profile; `beta` is optional in the source (`beta?: number`). -/
structure CompanyProfile where
  symbol : String
  name : String
  industry : String
  marketCap : ℚ
  sharesOutstanding : ℚ
  beta : Option ℚ
deriving Repr, DecidableEq

/-- Stock price snapshot. -/
structure StockPrice where
  current : ℚ
  fiftyTwoWeekHigh : ℚ
  fiftyTwoWeekLow : ℚ
deriving Repr, DecidableEq

/-- Normalized company snapshot consumed by every model; the three series are
oldest-first and every model reads the last element as the most recent period. -/
structure CompanyData where
  profile : CompanyProfile
  incomeStatements : List FinancialStatement
  cashFlowStatements : List CashFlowStatement
  balanceSheets : List BalanceSheet
  stockPrice : StockPrice
deriving Repr, DecidableEq

/-- Zero income statement, stands for the JS `undefined` row of an empty series. -/
def FinancialStatement.zero : FinancialStatement := ⟨0, 0, 0, 0, 0⟩

/-- Zero balance sheet, stands for the JS `undefined` row of an empty series. -/
def BalanceSheet.zero : BalanceSheet := ⟨0, 0, 0, 0, 0⟩

/-- Last element of a series, as in `arr[arr.length - 1]`. -/
def lastStmt (l : List FinancialStatement) : FinancialStatement :=
  l.getLastD FinancialStatement.zero

/-- Last balance sheet of a series, as in `arr[arr.length - 1]`. -/
def lastBal (l : List BalanceSheet) : BalanceSheet :=
  l.getLastD BalanceSheet.zero

/-- JS `v || d` on an optional number: `undefined` and `0` are both falsy. -/
def jsOr (v : Option ℚ) (d : ℚ) : ℚ :=
  match v with
  | none => d
  | some x => if x = 0 then d else x

/-- JS `arr[i] || arr[arr.length - 1]`: an out-of-range read (`undefined`)
and a stored `0` both fall back to the last element. -/
def jsOrIdx (arr : List ℚ) (i : ℕ) : ℚ :=
  if arr.getD i 0 = 0 then arr.getD (arr.length - 1) 0 else arr.getD i 0

/-! ## DCF model (`DCFModel`) -/

/-- Optional user overrides (`DCFInputs` in the source). -/
structure DCFInputs where
  projectionYears : Option ℕ := none
  revenueGrowth : Option (List ℚ) := none
  terminalGrowth : Option ℚ := none
  wacc : Option ℚ := none
  taxRate : Option ℚ := none
  riskFreeRate : Option ℚ := none
  marketRiskPremium : Option ℚ := none
  beta : Option ℚ := none
deriving Repr, DecidableEq

/-- Resolved inputs (`Required<DCFInputs>` stored on the instance). -/
structure DCFInputsR where
  projectionYears : ℕ
  revenueGrowth : List ℚ
  terminalGrowth : ℚ
  wacc : ℚ
  taxRate : ℚ
  riskFreeRate : ℚ
  marketRiskPremium : ℚ
  beta : ℚ
deriving Repr, DecidableEq

/-- Effective beta, `data.profile.beta || 1.0` in the constructor. -/
def effBeta (p : CompanyProfile) : ℚ :=
  jsOr p.beta 1

/-- The `DCFModel` constructor: resolve defaults.  Note the source hardcodes
`projectionYears: 5` (the override field is ignored) and computes the default
WACC as `costOfEquity * 0.7 + costOfDebt * 0.3 * (1 - 0.21)` with
`costOfDebt = 0.04` and a CAPM cost of equity. -/
def mkDCFInputs (data : CompanyData) (inputs : DCFInputs) : DCFInputsR :=
  let beta := effBeta data.profile
  let riskFreeRate : ℚ := 0.04
  let marketRiskPremium : ℚ := 0.05
  let costOfEquity := riskFreeRate + beta * marketRiskPremium
  let costOfDebt : ℚ := 0.04
  let defaultWACC := costOfEquity * 0.7 + costOfDebt * 0.3 * (1 - 0.21)
  { projectionYears := 5
    revenueGrowth := inputs.revenueGrowth.getD [0.15, 0.12, 0.10, 0.08, 0.06]
    terminalGrowth := inputs.terminalGrowth.getD 0.025
    wacc := inputs.wacc.getD defaultWACC
    taxRate := inputs.taxRate.getD 0.21
    riskFreeRate := inputs.riskFreeRate.getD riskFreeRate
    marketRiskPremium := inputs.marketRiskPremium.getD marketRiskPremium
    beta := inputs.beta.getD beta }

/-- One row of the DCF projection table. -/
structure DCFProjection where
  year : ℕ
  revenue : ℚ
  ebitda : ℚ
  ebit : ℚ
  nopat : ℚ
  dAndA : ℚ
  capex : ℚ
  nwcChange : ℚ
  fcf : ℚ
  discountFactor : ℚ
  presentValue : ℚ
deriving Repr, DecidableEq

/-- Zero DCF projection row (out-of-range default). -/
def DCFProjection.zero : DCFProjection := ⟨0,0,0,0,0,0,0,0,0,0,0⟩

/-- Loop body of `calculateProjections`.  `prevRevenue` is the value of
`lastStatement.revenue` seen at the top of the iteration: the source writes
`lastStatement.revenue = currentRevenue` at the end of each iteration, so the
`nwcChange` term reads the previous iteration's revenue.  Returns the rows and
the final value left in `lastStatement.revenue` (the snapshot mutation). -/
def dcfProjectAux (ins : DCFInputsR) (prevRevenue : ℚ) (year : ℕ) :
    ℕ → List DCFProjection × ℚ
  | 0 => ([], prevRevenue)
  | fuel + 1 =>
    let growthRate := jsOrIdx ins.revenueGrowth (year - 1)
    let currentRevenue := prevRevenue * (1 + growthRate)
    let ebitda := currentRevenue * 0.30
    let dAndA := currentRevenue * 0.05
    let ebit := ebitda - dAndA
    let nopat := ebit * (1 - ins.taxRate)
    let capex := currentRevenue * 0.08
    let nwcChange := (currentRevenue - prevRevenue) * 0.03
    let fcf := nopat + dAndA - capex - nwcChange
    let discountFactor := (1 + ins.wacc) ^ year
    let presentValue := fcf / discountFactor
    let rest := dcfProjectAux ins currentRevenue (year + 1) fuel
    (⟨year, currentRevenue, ebitda, ebit, nopat, dAndA, capex, nwcChange, fcf,
       discountFactor, presentValue⟩ :: rest.1, rest.2)

/-- Write-back of the loop's `lastStatement.revenue = currentRevenue` mutation:
replace the revenue of the last element of the income series. -/
def setLastRevenue (l : List FinancialStatement) (r : ℚ) : List FinancialStatement :=
  match l with
  | [] => []
  | [s] => [{ s with revenue := r }]
  | s :: rest => s :: setLastRevenue rest r

/-- `calculateProjections`: rows plus the snapshot as mutated by the loop. -/
def dcfCalculateProjections (data : CompanyData) (ins : DCFInputsR) :
    List DCFProjection × CompanyData :=
  let lastStatement := lastStmt data.incomeStatements
  let r := dcfProjectAux ins lastStatement.revenue 1 ins.projectionYears
  (r.1, { data with incomeStatements := setLastRevenue data.incomeStatements r.2 })

/-- `calculateTerminalValue`: Gordon growth off the last projected FCF. -/
def dcfTerminalValue (ins : DCFInputsR) (projections : List DCFProjection) : ℚ :=
  let lastFCF := (projections.getLastD DCFProjection.zero).fcf
  lastFCF * (1 + ins.terminalGrowth) / (ins.wacc - ins.terminalGrowth)

/-- `calculateEnterpriseValue`: sum of present values plus discounted terminal value. -/
def dcfEnterpriseValue (ins : DCFInputsR) (projections : List DCFProjection)
    (terminalValue : ℚ) : ℚ :=
  let pvOfProjections := projections.foldl (fun s p => s + p.presentValue) 0
  let pvOfTerminal := terminalValue / (1 + ins.wacc) ^ ins.projectionYears
  pvOfProjections + pvOfTerminal

/-- Full DCF valuation result (`DCFValuation`). -/
structure DCFValuation where
  revenueGrowth : List ℚ
  taxRate : ℚ
  terminalGrowth : ℚ
  wacc : ℚ
  projections : List DCFProjection
  terminalValue : ℚ
  enterpriseValue : ℚ
  netDebt : ℚ
  equityValue : ℚ
  sharesOutstanding : ℚ
  impliedSharePrice : ℚ
  currentPrice : ℚ
  upside : ℚ
deriving Repr, DecidableEq

/-- `DCFModel.calculate()`: the valuation result, together with the snapshot
as mutated by `calculateProjections` (the source updates
`this.data.incomeStatements[last].revenue` in place). -/
def dcfCalculate (data : CompanyData) (ins : DCFInputsR) : DCFValuation × CompanyData :=
  let pr := dcfCalculateProjections data ins
  let projections := pr.1
  let terminalValue := dcfTerminalValue ins projections
  let enterpriseValue := dcfEnterpriseValue ins projections terminalValue
  let lastBalance := lastBal data.balanceSheets
  let netDebt := lastBalance.totalDebt - lastBalance.cashAndEquivalents
  let equityValue := enterpriseValue - netDebt
  let sharesOutstanding := data.profile.sharesOutstanding
  let impliedSharePrice := equityValue / sharesOutstanding
  let currentPrice := data.stockPrice.current
  let upside := (impliedSharePrice - currentPrice) / currentPrice
  (⟨ins.revenueGrowth, ins.taxRate, ins.terminalGrowth, ins.wacc, projections,
    terminalValue, enterpriseValue, netDebt, equityValue, sharesOutstanding,
    impliedSharePrice, currentPrice, upside⟩, pr.2)

/-- Inner loop of `sensitivityAnalysis` over the growth range for a fixed wacc;
every iteration overwrites `inputs.wacc`/`inputs.terminalGrowth` and calls
`calculate()`, whose snapshot mutation is threaded through. -/
def sensRow (data : CompanyData) (ins : DCFInputsR) (wacc : ℚ) :
    List ℚ → List ℚ × CompanyData
  | [] => ([], data)
  | g :: gs =>
    let r := dcfCalculate data { ins with wacc := wacc, terminalGrowth := g }
    let rest := sensRow r.2 ins wacc gs
    (r.1.impliedSharePrice :: rest.1, rest.2)

/-- Outer loop of `sensitivityAnalysis` over the wacc range. -/
def sensRows (data : CompanyData) (ins : DCFInputsR) (growthRange : List ℚ) :
    List ℚ → List (List ℚ) × CompanyData
  | [] => ([], data)
  | w :: ws =>
    let row := sensRow data ins w growthRange
    let rest := sensRows row.2 ins growthRange ws
    (row.1 :: rest.1, rest.2)

/-- `DCFModel.sensitivityAnalysis(waccRange, growthRange)`: the price matrix,
the instance inputs after the final restore of `wacc`/`terminalGrowth`
(they return to their original values), and the snapshot as mutated by the
repeated `calculate()` calls. -/
def sensitivityAnalysis (data : CompanyData) (ins : DCFInputsR)
    (waccRange growthRange : List ℚ) :
    List (List ℚ) × DCFInputsR × CompanyData :=
  let r := sensRows data ins growthRange waccRange
  (r.1, ins, r.2)

/-! ## Three-Statement model (`ThreeStatementModel`) -/

/-- Resolved inputs of the Three-Statement model (`Required<ThreeStatementInputs>`). -/
structure TSInputsR where
  projectionYears : ℕ
  revenueGrowth : List ℚ
  grossMargin : ℚ
  operatingMargin : ℚ
  taxRate : ℚ
  arDays : ℚ
  inventoryDays : ℚ
  apDays : ℚ
deriving Repr, DecidableEq

/-- Default Three-Statement inputs produced by the constructor when no override
is supplied. -/
def tsDefaults : TSInputsR :=
  { projectionYears := 5
    revenueGrowth := [0.15, 0.12, 0.10, 0.08, 0.06]
    grossMargin := 0.40
    operatingMargin := 0.20
    taxRate := 0.21
    arDays := 45
    inventoryDays := 60
    apDays := 30 }

/-- Projected income-statement row of the Three-Statement result. -/
structure TSIncomeRow where
  year : ℕ
  revenue : ℚ
  costOfGoodsSold : ℚ
  grossProfit : ℚ
  operatingExpenses : ℚ
  operatingIncome : ℚ
  interestExpense : ℚ
  preTaxIncome : ℚ
  tax : ℚ
  netIncome : ℚ
deriving Repr, DecidableEq

/-- Projected balance-sheet row of the Three-Statement result. -/
structure TSBalanceRow where
  year : ℕ
  cash : ℚ
  accountsReceivable : ℚ
  inventory : ℚ
  totalCurrentAssets : ℚ
  ppe : ℚ
  totalAssets : ℚ
  accountsPayable : ℚ
  totalCurrentLiabilities : ℚ
  totalDebt : ℚ
  totalLiabilities : ℚ
  equity : ℚ
deriving Repr, DecidableEq

/-- Projected cash-flow row of the Three-Statement result. -/
structure TSCashFlowRow where
  year : ℕ
  netIncome : ℚ
  depreciation : ℚ
  changeInWorkingCapital : ℚ
  operatingCashFlow : ℚ
  capex : ℚ
  investingCashFlow : ℚ
  debtIssuance : ℚ
  financingCashFlow : ℚ
  netChangeInCash : ℚ
  beginningCash : ℚ
  endingCash : ℚ
deriving Repr, DecidableEq

/-- Zero cash-flow row (out-of-range default). -/
def TSCashFlowRow.zero : TSCashFlowRow := ⟨0,0,0,0,0,0,0,0,0,0,0,0⟩

/-- Full Three-Statement projection result. -/
structure TSResult where
  incomeStatements : List TSIncomeRow
  balanceSheets : List TSBalanceRow
  cashFlowStatements : List TSCashFlowRow
deriving Repr, DecidableEq

/-- Loop body of `ThreeStatementModel.project()`.  The carry is exactly the
state the source threads between iterations: `lastIncome.revenue` (re-bound to
a fresh object each year) and `lastBalance.cashAndEquivalents` (assigned in
place on the shared balance-sheet object).  `debt0`/`assets0` are
`lastBalance.totalDebt`/`lastBalance.totalAssets`, which the loop reads but
never writes. -/
def tsProjectAux (ins : TSInputsR) (debt0 assets0 : ℚ) (prevRevenue cash : ℚ)
    (year : ℕ) : ℕ → (List TSIncomeRow × List TSBalanceRow × List TSCashFlowRow) × ℚ
  | 0 => (([], [], []), cash)
  | fuel + 1 =>
    let growth := jsOrIdx ins.revenueGrowth (year - 1)
    let revenue := prevRevenue * (1 + growth)
    let cogs := revenue * (1 - ins.grossMargin)
    let grossProfit := revenue - cogs
    let operatingIncome := revenue * ins.operatingMargin
    let operatingExpenses := grossProfit - operatingIncome
    let interestExpense := debt0 * 0.05
    let preTaxIncome := operatingIncome - interestExpense
    let tax := preTaxIncome * ins.taxRate
    let netIncome := preTaxIncome - tax
    let ar := revenue / 365 * ins.arDays
    let inventory := cogs / 365 * ins.inventoryDays
    let ap := cogs / 365 * ins.apDays
    let depreciation := assets0 * 0.05
    let ppe := assets0 * 0.4 + (revenue - prevRevenue) * 0.3
    let totalCurrentAssets := cash + ar + inventory
    let totalAssets := totalCurrentAssets + ppe
    let totalCurrentLiabilities := ap + revenue * 0.1
    let totalLiabilities := totalCurrentLiabilities + debt0
    let equity := totalAssets - totalLiabilities
    let changeInWC := (ar - prevRevenue / 365 * ins.arDays) +
      (inventory - prevRevenue * 0.6 / 365 * ins.inventoryDays) -
      (ap - prevRevenue * 0.6 / 365 * ins.apDays)
    let operatingCF := netIncome + depreciation - changeInWC
    let capex := ppe - assets0 * 0.4 + depreciation
    let investingCF := -capex
    let debtIssuance : ℚ := 0
    let financingCF := debtIssuance
    let netChangeInCash := operatingCF + investingCF + financingCF
    let endingCash := cash + netChangeInCash
    let rest := tsProjectAux ins debt0 assets0 revenue endingCash (year + 1) fuel
    ((⟨year, revenue, cogs, grossProfit, operatingExpenses, operatingIncome,
        interestExpense, preTaxIncome, tax, netIncome⟩ :: rest.1.1,
      ⟨year, cash, ar, inventory, totalCurrentAssets, ppe, totalAssets, ap,
        totalCurrentLiabilities, debt0, totalLiabilities, equity⟩ :: rest.1.2.1,
      ⟨year, netIncome, depreciation, changeInWC, operatingCF, capex,
        investingCF, debtIssuance, financingCF, netChangeInCash, cash,
        endingCash⟩ :: rest.1.2.2), rest.2)

/-- Write-back of `lastBalance.cashAndEquivalents = endingCash`: replace the
cash balance of the last element of the balance-sheet series. -/
def setLastCash (l : List BalanceSheet) (c : ℚ) : List BalanceSheet :=
  match l with
  | [] => []
  | [b] => [{ b with cashAndEquivalents := c }]
  | b :: rest => b :: setLastCash rest c

/-- `ThreeStatementModel.project()`: the three projected statements, together
with the snapshot as mutated by the loop (the source assigns
`lastBalance.cashAndEquivalents = endingCash` on the shared object of
`this.data.balanceSheets`, so the final ending cash leaks into the caller's
snapshot; the income carry is re-bound to a copy and does not leak). -/
def tsProject (data : CompanyData) (ins : TSInputsR) : TSResult × CompanyData :=
  let lastIncome := lastStmt data.incomeStatements
  let lastBalance := lastBal data.balanceSheets
  let r := tsProjectAux ins lastBalance.totalDebt lastBalance.totalAssets
    lastIncome.revenue lastBalance.cashAndEquivalents 1 ins.projectionYears
  (⟨r.1.1, r.1.2.1, r.1.2.2⟩,
   { data with balanceSheets := setLastCash data.balanceSheets r.2 })

/-! ## LBO model (`LBOModel`) -/

/-- Resolved LBO inputs (`Required<LBOInputs>`); fields follow the source. -/
structure LBOInputsR where
  purchasePrice : ℚ
  premium : ℚ
  debtRatio : ℚ
  equityRatio : ℚ
  interestRate : ℚ
  exitMultiple : ℚ
  holdingPeriod : ℕ
  revenueGrowth : ℚ
  ebitdaMargin : ℚ
deriving Repr, DecidableEq

/-- One year of the LBO projection table. -/
structure LBOProjection where
  year : ℕ
  revenue : ℚ
  ebitda : ℚ
  ebit : ℚ
  interest : ℚ
  netIncome : ℚ
  freeCashFlow : ℚ
  debtRepayment : ℚ
  endingDebt : ℚ
deriving Repr, DecidableEq

/-- Zero LBO projection row (out-of-range default). -/
def LBOProjection.zero : LBOProjection := ⟨0,0,0,0,0,0,0,0,0⟩

/-- Loop body of `LBOModel.calculateProjections`: revenue compounds, and the
cash sweep repays `min(freeCashFlow, endingDebt)` each year. -/
def lboProjectAux (ins : LBOInputsR) (prevRevenue prevDebt : ℚ) (year : ℕ) :
    ℕ → List LBOProjection
  | 0 => []
  | fuel + 1 =>
    let revenue := prevRevenue * (1 + ins.revenueGrowth)
    let ebitda := revenue * ins.ebitdaMargin
    let dAndA := revenue * 0.05
    let ebit := ebitda - dAndA
    let interest := prevDebt * ins.interestRate
    let netIncome := (ebit - interest) * (1 - 0.21)
    let capex := revenue * 0.05
    let nwcChange := revenue * 0.02
    let freeCashFlow := netIncome + dAndA - capex - nwcChange
    let debtRepayment := min freeCashFlow prevDebt
    let endingDebt := prevDebt - debtRepayment
    ⟨year, revenue, ebitda, ebit, interest, netIncome, freeCashFlow,
      debtRepayment, endingDebt⟩ :: lboProjectAux ins revenue endingDebt (year + 1) fuel

/-- Net debt from the latest balance sheet (`LBOModel.getNetDebt`). -/
def lboNetDebt (data : CompanyData) : ℚ :=
  let lastBalance := lastBal data.balanceSheets
  lastBalance.totalDebt - lastBalance.cashAndEquivalents

/-- Entry debt financing (`calculateEntry` then `calculateDebtStructure`):
total debt is `debtFinancing * 0.7 + debtFinancing * 0.3`. -/
def lboTotalDebt (data : CompanyData) (ins : LBOInputsR) : ℚ :=
  let equityValue := ins.purchasePrice * data.profile.sharesOutstanding
  let enterpriseValue := equityValue + lboNetDebt data
  let debtFinancing := enterpriseValue * ins.debtRatio
  debtFinancing * 0.7 + debtFinancing * 0.3

/-- `LBOModel.calculateProjections` over the holding period, starting from the
latest revenue and the entry debt structure. -/
def lboProjections (data : CompanyData) (ins : LBOInputsR) : List LBOProjection :=
  let lastIncome := lastStmt data.incomeStatements
  lboProjectAux ins lastIncome.revenue (lboTotalDebt data ins) 1 ins.holdingPeriod

/-! ## Percentile helper and the randomized cross-sectional models -/

/-- Quartile statistics record (`low/median/high/mean`). -/
structure Stats4 where
  low : ℚ
  median : ℚ
  high : ℚ
  mean : ℚ
deriving Repr, DecidableEq

/-- Low/base/high triple used by valuation and implied-price blocks. -/
structure LBH where
  low : ℚ
  base : ℚ
  high : ℚ
deriving Repr, DecidableEq

/-- `CompsModel.calculatePercentile`: sort ascending (numeric comparator sort),
take `Math.floor((percentile / 100) * (sorted.length - 1))`, return that
element (nearest rank, no interpolation). -/
def CompsModel.calculatePercentile (values : List ℚ) (percentile : ℚ) : ℚ :=
  let sorted := values.insertionSort (· ≤ ·)
  let index := (⌊percentile / 100 * ((sorted.length : ℚ) - 1)⌋).toNat
  sorted.getD index 0

/-- `PrecedentTransactionModel.calculatePercentile`: textually identical
implementation in the precedent-transaction source file. -/
def PrecedentTransactionModel.calculatePercentile (values : List ℚ) (percentile : ℚ) : ℚ :=
  let sorted := values.insertionSort (· ≤ ·)
  let index := (⌊percentile / 100 * ((sorted.length : ℚ) - 1)⌋).toNat
  sorted.getD index 0

/-- Stream of `Math.random()` draws with a cursor: each call reads the value at
the cursor and advances it. -/
structure RNG where
  stream : ℕ → ℚ
  pos : ℕ

/-- One `Math.random()` call. -/
def RNG.next (r : RNG) : ℚ × RNG :=
  (r.stream r.pos, { r with pos := r.pos + 1 })

/-- Synthetic peer company generated by `CompsModel.generatePeers`. -/
structure PeerCompany where
  symbol : String
  name : String
  marketCap : ℚ
  enterpriseValue : ℚ
  revenue : ℚ
  ebitda : ℚ
  netIncome : ℚ
deriving Repr, DecidableEq

/-- One peer of `generatePeers`: six `Math.random()` draws in source order. -/
def genPeer (baseRevenue : ℚ) (i : ℕ) (nm : String) (rng : RNG) : PeerCompany × RNG :=
  let d1 := rng.next
  let variance := 0.5 + d1.1
  let d2 := d1.2.next
  let revenue := baseRevenue * variance * (0.3 + d2.1 * 1.5)
  let d3 := d2.2.next
  let ebitda := revenue * (0.15 + d3.1 * 0.2)
  let d4 := d3.2.next
  let netIncome := ebitda * (0.5 + d4.1 * 0.3)
  let d5 := d4.2.next
  let ev := ebitda * (8 + d5.1 * 8)
  let d6 := d5.2.next
  let marketCap := ev * (0.8 + d6.1 * 0.3)
  (⟨s!"PEER{i + 1}", nm, marketCap, ev, revenue, ebitda, netIncome⟩, d6.2)

/-- `generatePeers` over the fixed list of eight peer names. -/
def genPeers (baseRevenue : ℚ) : List (ℕ × String) → RNG → List PeerCompany × RNG
  | [], rng => ([], rng)
  | (i, nm) :: rest, rng =>
    let p := genPeer baseRevenue i nm rng
    let r := genPeers baseRevenue rest p.2
    (p.1 :: r.1, r.2)

/-- Peer display names used by `generatePeers`. -/
def peerNames : List (ℕ × String) :=
  [(0, "Peer A"), (1, "Peer B"), (2, "Peer C"), (3, "Peer D"),
   (4, "Peer E"), (5, "Peer F"), (6, "Peer G"), (7, "Peer H")]

/-- Instance state of `CompsModel`: the snapshot and the peer set generated
once in the constructor. -/
structure CompsModel where
  data : CompanyData
  peers : List PeerCompany

/-- The `CompsModel` constructor: store the snapshot and generate the peers
(the only place the model draws randomness). -/
def mkCompsModel (data : CompanyData) (rng : RNG) : CompsModel × RNG :=
  let baseRevenue := (lastStmt data.incomeStatements).revenue
  let p := genPeers baseRevenue peerNames rng
  (⟨data, p.1⟩, p.2)

/-- Target metrics block shared by `analyze` (`getTargetMetrics`). -/
structure TargetMetrics where
  symbol : String
  revenue : ℚ
  ebitda : ℚ
  netIncome : ℚ
  marketCap : ℚ
  enterpriseValue : ℚ
deriving Repr, DecidableEq

/-- `CompsModel.getTargetMetrics`. -/
def compsTargetMetrics (data : CompanyData) : TargetMetrics :=
  let lastIncome := lastStmt data.incomeStatements
  let lastBalance := lastBal data.balanceSheets
  ⟨data.profile.symbol, lastIncome.revenue, lastIncome.ebitda, lastIncome.netIncome,
   data.profile.marketCap,
   data.profile.marketCap + lastBalance.totalDebt - lastBalance.cashAndEquivalents⟩

/-- Mean via `reduce((a, b) => a + b, 0) / values.length`. -/
def listMean (values : List ℚ) : ℚ :=
  values.foldl (· + ·) 0 / (values.length : ℚ)

/-- The `stats` closure of both cross-sectional models: 25th/50th/75th
percentile and mean. -/
def statsOf (values : List ℚ) : Stats4 :=
  ⟨CompsModel.calculatePercentile values 25,
   CompsModel.calculatePercentile values 50,
   CompsModel.calculatePercentile values 75,
   listMean values⟩

/-- Multiples block of the Comps result. -/
structure CompsMultiples where
  evRevenue : Stats4
  evEbitda : Stats4
  pe : Stats4
deriving Repr, DecidableEq

/-- `CompsModel.calculateMultiples`: peers plus the target itself, each
multiple filtered to its plausibility band before the statistics. -/
def compsMultiples (m : CompsModel) : CompsMultiples :=
  let t := compsTargetMetrics m.data
  let allCompanies := m.peers ++
    [⟨m.data.profile.symbol, m.data.profile.name, t.marketCap, t.enterpriseValue,
      t.revenue, t.ebitda, t.netIncome⟩]
  let evRevenueMultiples :=
    (allCompanies.map (fun c => c.enterpriseValue / c.revenue)).filter
      (fun x => 0 < x ∧ x < 50)
  let evEbitdaMultiples :=
    (allCompanies.map (fun c => c.enterpriseValue / c.ebitda)).filter
      (fun x => 0 < x ∧ x < 50)
  let peMultiples :=
    (allCompanies.map (fun c => c.marketCap / c.netIncome)).filter
      (fun x => 0 < x ∧ x < 100)
  ⟨statsOf evRevenueMultiples, statsOf evEbitdaMultiples, statsOf peMultiples⟩

/-- Valuation / implied-price block of the Comps result. -/
structure CompsTriples where
  evRevenue : LBH
  evEbitda : LBH
  pe : LBH
deriving Repr, DecidableEq

/-- `CompsModel.calculateValuation`. -/
def compsValuation (m : CompsModel) (mult : CompsMultiples) : CompsTriples :=
  let t := compsTargetMetrics m.data
  ⟨⟨t.revenue * mult.evRevenue.low, t.revenue * mult.evRevenue.median,
    t.revenue * mult.evRevenue.high⟩,
   ⟨t.ebitda * mult.evEbitda.low, t.ebitda * mult.evEbitda.median,
    t.ebitda * mult.evEbitda.high⟩,
   ⟨t.netIncome * mult.pe.low, t.netIncome * mult.pe.median,
    t.netIncome * mult.pe.high⟩⟩

/-- `CompsModel.calculateImpliedSharePrice`. -/
def compsImpliedSharePrice (m : CompsModel) (v : CompsTriples) : CompsTriples :=
  let sharesOutstanding := m.data.profile.sharesOutstanding
  let lastBalance := lastBal m.data.balanceSheets
  let netDebt := lastBalance.totalDebt - lastBalance.cashAndEquivalents
  let evToEquity := fun ev => (ev - netDebt) / sharesOutstanding
  ⟨⟨evToEquity v.evRevenue.low, evToEquity v.evRevenue.base, evToEquity v.evRevenue.high⟩,
   ⟨evToEquity v.evEbitda.low, evToEquity v.evEbitda.base, evToEquity v.evEbitda.high⟩,
   ⟨v.pe.low / sharesOutstanding, v.pe.base / sharesOutstanding,
    v.pe.high / sharesOutstanding⟩⟩

/-- Full Comps result. -/
structure CompsResult where
  target : TargetMetrics
  peers : List PeerCompany
  multiples : CompsMultiples
  valuation : CompsTriples
  impliedSharePrice : CompsTriples
deriving Repr, DecidableEq

/-- `CompsModel.analyze()`: a pure function of the stored instance state.  The
ambient random stream is threaded to witness that the body never draws from it
(no `Math.random()` call occurs in `analyze` or its callees). -/
def compsAnalyze (m : CompsModel) (rng : RNG) : CompsResult × RNG :=
  let target := compsTargetMetrics m.data
  let multiples := compsMultiples m
  let valuation := compsValuation m multiples
  let impliedSharePrice := compsImpliedSharePrice m valuation
  (⟨target, m.peers, multiples, valuation, impliedSharePrice⟩, rng)

/-- Synthetic precedent transaction (the date string is represented by its
year and month numbers, which determine the `getTime` sort key). -/
structure Transaction where
  dateYear : ℤ
  dateMonth : ℤ
  target : String
  acquirer : String
  targetIndustry : String
  dealValue : ℚ
  targetRevenue : ℚ
  targetEBITDA : ℚ
  premium : ℚ
  strategic : Bool
deriving Repr, DecidableEq

/-- Acquirer names of `generateTransactions`. -/
def acquirerNames : List String :=
  ["Blackstone", "KKR", "Carlyle", "Bain Capital", "Warburg Pincus",
   "Thoma Bravo", "Vista Equity", "Advent International", "EQT", "Silver Lake"]

/-- Target names of `generateTransactions`. -/
def targetNames : List String :=
  ["TechTarget", "SoftwareCo", "CloudSys", "DataAnalytics", "CyberSecurity",
   "AITools", "Fintech", "HealthTech", "EdTech", "Ecommerce", "SaaSPlatform",
   "MobileApp", "Gaming", "SocialMedia", "Marketplace"]

/-- One transaction of `generateTransactions`: eight `Math.random()` draws in
source order (strategic flag, variance, revenue, ebitda, multiple — the ternary
evaluates a single draw — premium, then year and month of the date string). -/
def genTransaction (baseRevenue : ℚ) (industry : String) (i : ℕ) (rng : RNG) :
    Transaction × RNG :=
  let d1 := rng.next
  let isStrategic := if (0.5 : ℚ) < d1.1 then true else false
  let d2 := d1.2.next
  let variance := 0.5 + d2.1 * 1.5
  let d3 := d2.2.next
  let revenue := baseRevenue * variance * (0.2 + d3.1)
  let d4 := d3.2.next
  let ebitda := revenue * (0.15 + d4.1 * 0.15)
  let d5 := d4.2.next
  let multiple := if isStrategic then 10 + d5.1 * 8 else 8 + d5.1 * 6
  let dealValue := ebitda * multiple
  let d6 := d5.2.next
  let premium := 0.15 + d6.1 * 0.35
  let d7 := d6.2.next
  let dateYear := 2020 + ⌊d7.1 * 5⌋
  let d8 := d7.2.next
  let dateMonth := ⌊d8.1 * 12⌋ + 1
  (⟨dateYear, dateMonth, targetNames.getD i "", acquirerNames.getD (i % acquirerNames.length) "",
    industry, dealValue, revenue, ebitda, premium, isStrategic⟩, d8.2)

/-- Descending-date relation of the `sort((a, b) => getTime(b) - getTime(a))`
comparator: later (year, month) keys come first. -/
def txAfter (a b : Transaction) : Prop :=
  b.dateYear * 12 + b.dateMonth ≤ a.dateYear * 12 + a.dateMonth

instance : DecidableRel txAfter := fun a b =>
  inferInstanceAs (Decidable (b.dateYear * 12 + b.dateMonth ≤ a.dateYear * 12 + a.dateMonth))

/-- The fifteen indexed draws of `generateTransactions`, before the sort. -/
def genTransactions (baseRevenue : ℚ) (industry : String) :
    List ℕ → RNG → List Transaction × RNG
  | [], rng => ([], rng)
  | i :: rest, rng =>
    let t := genTransaction baseRevenue industry i rng
    let r := genTransactions baseRevenue industry rest t.2
    (t.1 :: r.1, r.2)

/-- Instance state of `PrecedentTransactionModel`: the snapshot and the
transaction set generated once in the constructor. -/
structure PrecedentTransactionModel where
  data : CompanyData
  transactions : List Transaction

/-- The `PrecedentTransactionModel` constructor: generate fifteen synthetic
transactions and sort them by descending date. -/
def mkPrecedentModel (data : CompanyData) (rng : RNG) :
    PrecedentTransactionModel × RNG :=
  let lastIncome := lastStmt data.incomeStatements
  let g := genTransactions lastIncome.revenue data.profile.industry
    (List.range 15) rng
  (⟨data, g.1.insertionSort txAfter⟩, g.2)

/-- Target metrics block of the precedent result (`getTargetMetrics`). -/
structure PrecedentTarget where
  revenue : ℚ
  ebitda : ℚ
  marketCap : ℚ
  enterpriseValue : ℚ
deriving Repr, DecidableEq

/-- `PrecedentTransactionModel.getTargetMetrics`. -/
def precedentTargetMetrics (data : CompanyData) : PrecedentTarget :=
  let lastIncome := lastStmt data.incomeStatements
  let lastBalance := lastBal data.balanceSheets
  ⟨lastIncome.revenue, lastIncome.ebitda, data.profile.marketCap,
   data.profile.marketCap + lastBalance.totalDebt - lastBalance.cashAndEquivalents⟩

/-- Multiples block of the precedent result. -/
structure PrecedentMultiples where
  evRevenue : Stats4
  evEbitda : Stats4
deriving Repr, DecidableEq

/-- `PrecedentTransactionModel.calculateMultiples` with its filters
(`0 < m < 30` for EV/Revenue, `0 < m < 50` for EV/EBITDA). -/
def precedentMultiples (m : PrecedentTransactionModel) : PrecedentMultiples :=
  let evRevenue := (m.transactions.map (fun t => t.dealValue / t.targetRevenue)).filter
    (fun x => 0 < x ∧ x < 30)
  let evEbitda := (m.transactions.map (fun t => t.dealValue / t.targetEBITDA)).filter
    (fun x => 0 < x ∧ x < 50)
  ⟨⟨PrecedentTransactionModel.calculatePercentile evRevenue 25,
    PrecedentTransactionModel.calculatePercentile evRevenue 50,
    PrecedentTransactionModel.calculatePercentile evRevenue 75,
    listMean evRevenue⟩,
   ⟨PrecedentTransactionModel.calculatePercentile evEbitda 25,
    PrecedentTransactionModel.calculatePercentile evEbitda 50,
    PrecedentTransactionModel.calculatePercentile evEbitda 75,
    listMean evEbitda⟩⟩

/-- `PrecedentTransactionModel.calculatePremiums`. -/
def precedentPremiums (m : PrecedentTransactionModel) : Stats4 :=
  let premiums := m.transactions.map (fun t => t.premium)
  ⟨PrecedentTransactionModel.calculatePercentile premiums 25,
   PrecedentTransactionModel.calculatePercentile premiums 50,
   PrecedentTransactionModel.calculatePercentile premiums 75,
   listMean premiums⟩

/-- Valuation / implied-price block of the precedent result. -/
structure PrecedentTriples where
  evRevenue : LBH
  evEbitda : LBH
deriving Repr, DecidableEq

/-- `PrecedentTransactionModel.calculateValuation`. -/
def precedentValuation (m : PrecedentTransactionModel)
    (mult : PrecedentMultiples) : PrecedentTriples :=
  let t := precedentTargetMetrics m.data
  ⟨⟨t.revenue * mult.evRevenue.low, t.revenue * mult.evRevenue.median,
    t.revenue * mult.evRevenue.high⟩,
   ⟨t.ebitda * mult.evEbitda.low, t.ebitda * mult.evEbitda.median,
    t.ebitda * mult.evEbitda.high⟩⟩

/-- `PrecedentTransactionModel.calculateImpliedSharePrice`. -/
def precedentImpliedSharePrice (m : PrecedentTransactionModel)
    (v : PrecedentTriples) : PrecedentTriples :=
  let sharesOutstanding := m.data.profile.sharesOutstanding
  let lastBalance := lastBal m.data.balanceSheets
  let netDebt := lastBalance.totalDebt - lastBalance.cashAndEquivalents
  let evToEquity := fun ev => (ev - netDebt) / sharesOutstanding
  ⟨⟨evToEquity v.evRevenue.low, evToEquity v.evRevenue.base, evToEquity v.evRevenue.high⟩,
   ⟨evToEquity v.evEbitda.low, evToEquity v.evEbitda.base, evToEquity v.evEbitda.high⟩⟩

/-- Full precedent-transaction result. -/
structure PrecedentResult where
  transactions : List Transaction
  target : PrecedentTarget
  multiples : PrecedentMultiples
  premiums : Stats4
  valuation : PrecedentTriples
  impliedSharePrice : PrecedentTriples
deriving Repr, DecidableEq

/-- `PrecedentTransactionModel.analyze()`: a pure function of the stored
instance state; the random stream is threaded to witness that no draw occurs. -/
def precedentAnalyze (m : PrecedentTransactionModel) (rng : RNG) :
    PrecedentResult × RNG :=
  let target := precedentTargetMetrics m.data
  let multiples := precedentMultiples m
  let premiums := precedentPremiums m
  let valuation := precedentValuation m multiples
  let impliedSharePrice := precedentImpliedSharePrice m valuation
  (⟨m.transactions, target, multiples, premiums, valuation, impliedSharePrice⟩, rng)

/-! ## M&A accretion/dilution model (`MAModel`) -/

/-- Optional M&A deal inputs; the nested `synergies?: { cost, revenue }`
object is flattened into its two optional fields. -/
structure MAInputs where
  targetPrice : Option ℚ := none
  premium : Option ℚ := none
  cashPercent : Option ℚ := none
  stockPercent : Option ℚ := none
  debtPercent : Option ℚ := none
  interestRate : Option ℚ := none
  synergiesCost : Option ℚ := none
  synergiesRevenue : Option ℚ := none
deriving Repr, DecidableEq

/-- Resolved M&A inputs stored on the instance. -/
structure MAInputsR where
  targetPrice : ℚ
  premium : ℚ
  cashPercent : ℚ
  stockPercent : ℚ
  debtPercent : ℚ
  interestRate : ℚ
  synergiesCost : ℚ
  synergiesRevenue : ℚ
deriving Repr, DecidableEq

/-- The `MAModel` constructor.  Every default uses the JS `||` operator, so a
supplied `0` falls back to the default (`cashPercent: 0` becomes `0.40`,
`debtPercent: 0` becomes `0.20`, and so on). -/
def mkMAInputs (target : CompanyData) (inputs : MAInputs) : MAInputsR :=
  let targetPrice := jsOr inputs.targetPrice target.stockPrice.current
  let totalConsideration :=
    targetPrice * (1 + jsOr inputs.premium 0.30) * target.profile.sharesOutstanding
  { targetPrice := targetPrice
    premium := jsOr inputs.premium 0.30
    cashPercent := jsOr inputs.cashPercent 0.40
    stockPercent := jsOr inputs.stockPercent 0.40
    debtPercent := jsOr inputs.debtPercent 0.20
    interestRate := jsOr inputs.interestRate 0.06
    synergiesCost := jsOr inputs.synergiesCost (totalConsideration * 0.02)
    synergiesRevenue := jsOr inputs.synergiesRevenue 0 }

/-- Deal block of the M&A result. -/
structure MADeal where
  targetPrice : ℚ
  premium : ℚ
  offerPrice : ℚ
  totalConsideration : ℚ
  cashComponent : ℚ
  stockComponent : ℚ
  debtComponent : ℚ
  sharesIssued : ℚ
deriving Repr, DecidableEq

/-- `MAModel.calculateDeal`. -/
def maDeal (acquirer target : CompanyData) (ins : MAInputsR) : MADeal :=
  let offerPrice := ins.targetPrice * (1 + ins.premium)
  let totalConsideration := offerPrice * target.profile.sharesOutstanding
  let cashComponent := totalConsideration * ins.cashPercent
  let stockComponent := totalConsideration * ins.stockPercent
  let debtComponent := totalConsideration * ins.debtPercent
  let acquirerPrice := acquirer.stockPrice.current
  ⟨ins.targetPrice, ins.premium, offerPrice, totalConsideration, cashComponent,
   stockComponent, debtComponent, stockComponent / acquirerPrice⟩

/-- Standalone acquirer block of the M&A result. -/
structure MAStandalone where
  netIncome : ℚ
  sharesOutstanding : ℚ
  eps : ℚ
deriving Repr, DecidableEq

/-- `MAModel.getAcquirerStandalone`: the reported latest net income over the
share count. -/
def maStandalone (acquirer : CompanyData) : MAStandalone :=
  let lastIncome := lastStmt acquirer.incomeStatements
  ⟨lastIncome.netIncome, acquirer.profile.sharesOutstanding,
   lastIncome.netIncome / acquirer.profile.sharesOutstanding⟩

/-- Pro-forma block of the M&A result. -/
structure MAProForma where
  revenue : ℚ
  ebitda : ℚ
  ebit : ℚ
  interestExpense : ℚ
  netIncome : ℚ
  sharesOutstanding : ℚ
  eps : ℚ
deriving Repr, DecidableEq

/-- `MAModel.calculateProForma`: combined operating income less an interest
proxy (`acquirer EBITDA - acquirer operating income` plus new-debt interest),
taxed at a flat 21% — the pro-forma net income is recomputed, not the sum of
the reported net incomes. -/
def maProForma (acquirer target : CompanyData) (ins : MAInputsR) (deal : MADeal) :
    MAProForma :=
  let acquirerIncome := lastStmt acquirer.incomeStatements
  let targetIncome := lastStmt target.incomeStatements
  let revenue := acquirerIncome.revenue + targetIncome.revenue
  let ebitda := acquirerIncome.ebitda + targetIncome.ebitda
  let ebit := acquirerIncome.operatingIncome + targetIncome.operatingIncome
  let additionalInterest := deal.debtComponent * ins.interestRate
  let interestExpense := (acquirerIncome.ebitda - acquirerIncome.operatingIncome) +
    additionalInterest
  let preTaxIncome := ebit - interestExpense
  let tax := preTaxIncome * 0.21
  let netIncome := preTaxIncome - tax
  let sharesOutstanding := acquirer.profile.sharesOutstanding + deal.sharesIssued
  ⟨revenue, ebitda, ebit, interestExpense, netIncome, sharesOutstanding,
   netIncome / sharesOutstanding⟩

/-- Accretion/dilution block of the M&A result. -/
structure MAAccretion where
  epsImpact : ℚ
  percentChange : ℚ
  isAccretive : Bool
deriving Repr, DecidableEq

/-- `MAModel.calculateAccretionDilution`: pro-forma EPS against standalone
EPS; accretive iff the EPS impact is strictly positive. -/
def maAccretionDilution (standalone : MAStandalone) (proForma : MAProForma) :
    MAAccretion :=
  let epsImpact := proForma.eps - standalone.eps
  ⟨epsImpact, epsImpact / standalone.eps, if 0 < epsImpact then true else false⟩

/-- Result of `MAModel.analyze()` restricted to the blocks the claims are
about (deal, standalone, pro-forma, accretion/dilution). -/
structure MAResult where
  deal : MADeal
  acquirerStandalone : MAStandalone
  proForma : MAProForma
  accretionDilution : MAAccretion
deriving Repr, DecidableEq

/-- `MAModel.analyze()` (the claim-relevant blocks; the synergy, credit and
break-even blocks do not feed back into these). -/
def maAnalyze (acquirer target : CompanyData) (inputs : MAInputs) : MAResult :=
  let ins := mkMAInputs target inputs
  let deal := maDeal acquirer target ins
  let acquirerStandalone := maStandalone acquirer
  let proForma := maProForma acquirer target ins deal
  ⟨deal, acquirerStandalone, proForma,
   maAccretionDilution acquirerStandalone proForma⟩

/-! ## Concrete sample inputs used by witnesses and counterexamples -/

/-- Zero projected income-statement row (out-of-range default). -/
def TSIncomeRow.zero : TSIncomeRow := ⟨0,0,0,0,0,0,0,0,0,0⟩

/-- Default-WACC formula as the spec sentence literally reads: CAPM cost of
equity weighted 70% plus an after-tax cost of debt *of 4%* weighted 30%
(no further tax adjustment of the 4%). -/
def specClaimedDefaultWACC (beta : ℚ) : ℚ :=
  (0.04 + beta * 0.05) * 0.7 + 0.04 * 0.3

/-- Sample snapshot with a single income period of revenue 100, an all-zero
balance sheet (zero net debt), one share outstanding and beta 1. -/
def dataLeak : CompanyData :=
  ⟨⟨"LEAK", "Leak Co", "Tech", 1000, 1, some 1⟩,
   [⟨100, 40, 25, 15, 30⟩],
   [⟨20, -5, 15, 4⟩],
   [⟨0, 0, 0, 0, 0⟩],
   ⟨1, 2, 0.5⟩⟩

/-- Resolved DCF inputs chosen for exact arithmetic: 100% growth every year,
zero tax, WACC 1 and terminal growth 0. -/
def insLeak : DCFInputsR :=
  { projectionYears := 5
    revenueGrowth := [1]
    terminalGrowth := 0
    wacc := 1
    taxRate := 0
    riskFreeRate := 0.04
    marketRiskPremium := 0.05
    beta := 1 }

/-- Same resolved inputs but with WACC 3 (for the monotonicity witness). -/
def insLeakW3 : DCFInputsR := { insLeak with wacc := 3 }

/-- Sample snapshot whose latest revenue is negative (the data contract does
not forbid it); all other fields benign. -/
def dataNegRev : CompanyData :=
  ⟨⟨"NEG", "Neg Co", "Tech", 1000, 1, some 1⟩,
   [⟨-100, 40, 25, 15, 30⟩],
   [⟨20, -5, 15, 4⟩],
   [⟨0, 0, 0, 0, 0⟩],
   ⟨1, 2, 0.5⟩⟩

/-- Three-Statement inputs with a supplied growth vector `[0]` (constant
revenue) and the model defaults otherwise. -/
def tsInsC2 : TSInputsR := { tsDefaults with revenueGrowth := [0] }

/-- Sample snapshot for the Three-Statement model: revenue 100, zero debt,
zero assets and zero starting cash. -/
def dataTS : CompanyData :=
  ⟨⟨"TS", "TS Co", "Tech", 1000, 1, some 1⟩,
   [⟨100, 40, 20, 15, 30⟩],
   [⟨20, -5, 15, 4⟩],
   [⟨0, 0, 0, 0, 0⟩],
   ⟨1, 2, 0.5⟩⟩

/-- Resolved DCF inputs whose supplied growth vector starts with a stored `0`
(a legitimate zero growth rate in year 1) followed by `1/10`. -/
def insZeroGrowth : DCFInputsR :=
  { projectionYears := 5
    revenueGrowth := [0, 0.1]
    terminalGrowth := 0.025
    wacc := 0.1
    taxRate := 0.21
    riskFreeRate := 0.04
    marketRiskPremium := 0.05
    beta := 1 }

/-- Acquirer snapshot for the M&A counterexample: operating income 100 and
EBITDA 100 (so the interest proxy is zero) but a reported net income of
only 10, 100 shares at price 1. -/
def acqC9 : CompanyData :=
  ⟨⟨"ACQ", "Acquirer", "Tech", 100, 100, some 1⟩,
   [⟨100, 60, 100, 10, 100⟩],
   [⟨20, -5, 15, 4⟩],
   [⟨200, 100, 100, 0, 0⟩],
   ⟨1, 2, 0.5⟩⟩

/-- Target snapshot for the M&A counterexample: net income 10, operating
income 10, 100 shares at price 1. -/
def tgtC9 : CompanyData :=
  ⟨⟨"TGT", "Target", "Tech", 100, 100, some 1⟩,
   [⟨10, 6, 10, 10, 10⟩],
   [⟨2, -1, 1, 1⟩],
   [⟨20, 10, 10, 0, 0⟩],
   ⟨1, 2, 0.5⟩⟩

/-- Deal terms of the claim: zero synergies and a nominal 100% stock mix
(`cashPercent = 0`, `stockPercent = 1`, `debtPercent = 0`) at a 30% premium. -/
def insC9 : MAInputs :=
  { targetPrice := none
    premium := some 0.30
    cashPercent := some 0
    stockPercent := some 1
    debtPercent := some 0
    interestRate := none
    synergiesCost := some 0
    synergiesRevenue := some 0 }

/-- LBO inputs for the witness: one-year hold, zero interest, 50/50 debt
split so that the entry debt is exactly 1. -/
def lboInsW : LBOInputsR :=
  { purchasePrice := 2
    premium := 0.3
    debtRatio := 0.5
    equityRatio := 0.5
    interestRate := 0
    exitMultiple := 10
    holdingPeriod := 1
    revenueGrowth := 0
    ebitdaMargin := 0.25 }

/-- Acquirer snapshot for the C9 witness: identical to `acqC9` except that the
reported net income (79) is consistent with the model's pro-forma
recomputation from operating income at the flat 21% tax. -/
def acqW9 : CompanyData :=
  ⟨⟨"ACW", "Acquirer W", "Tech", 100, 100, some 1⟩,
   [⟨100, 60, 100, 79, 100⟩],
   [⟨20, -5, 15, 4⟩],
   [⟨200, 100, 100, 0, 0⟩],
   ⟨1, 2, 0.5⟩⟩

/-! ## Theorems settling the claims -/

/-- Helper: the first element of a non-empty list is a member. -/
theorem getD_zero_mem {α : Type} (l : List α) (d : α) (h : l ≠ []) :
    l.getD 0 d ∈ l := by
  cases l with
  | nil => exact absurd rfl h
  | cons a t => simp

/-- Helper: every row the LBO cash-sweep loop emits carries a non-negative
outstanding debt, whatever the starting debt and revenue. -/
theorem lbo_aux_nonneg : ∀ (fuel : ℕ) (ins : LBOInputsR) (prevRev prevDebt : ℚ) (year : ℕ),
    ∀ p ∈ lboProjectAux ins prevRev prevDebt year fuel, 0 ≤ p.endingDebt := by
  intro fuel
  induction fuel with
  | zero => intro ins prevRev prevDebt year p hp; simp [lboProjectAux] at hp
  | succ n ih =>
    intro ins prevRev prevDebt year p hp
    simp only [lboProjectAux, List.mem_cons] at hp
    rcases hp with h | h
    · subst h
      simp only
      have := min_le_right
        ((prevRev * (1 + ins.revenueGrowth) * ins.ebitdaMargin -
            prevRev * (1 + ins.revenueGrowth) * 0.05 - prevDebt * ins.interestRate) * (1 - 0.21) +
          prevRev * (1 + ins.revenueGrowth) * 0.05 - prevRev * (1 + ins.revenueGrowth) * 0.05 -
          prevRev * (1 + ins.revenueGrowth) * 0.02) prevDebt
      linarith
    · exact ih _ _ _ _ p h

/-- Helper: each row's repayment is `min(freeCashFlow, debt remaining before
the row)`, and its ending debt is that remaining debt less the repayment. -/
theorem lbo_aux_chain : ∀ (fuel : ℕ) (ins : LBOInputsR) (prevRev prevDebt : ℚ) (year i : ℕ),
    i < (lboProjectAux ins prevRev prevDebt year fuel).length →
    (((lboProjectAux ins prevRev prevDebt year fuel).getD i LBOProjection.zero).debtRepayment =
      min ((lboProjectAux ins prevRev prevDebt year fuel).getD i LBOProjection.zero).freeCashFlow
        (if i = 0 then prevDebt
         else ((lboProjectAux ins prevRev prevDebt year fuel).getD (i-1) LBOProjection.zero).endingDebt) ∧
    ((lboProjectAux ins prevRev prevDebt year fuel).getD i LBOProjection.zero).endingDebt =
      (if i = 0 then prevDebt
       else ((lboProjectAux ins prevRev prevDebt year fuel).getD (i-1) LBOProjection.zero).endingDebt) -
        ((lboProjectAux ins prevRev prevDebt year fuel).getD i LBOProjection.zero).debtRepayment) := by
  intro fuel
  induction fuel with
  | zero => intro ins prevRev prevDebt year i hi; simp [lboProjectAux] at hi
  | succ n ih =>
    intro ins prevRev prevDebt year i hi
    match i with
    | 0 => simp [lboProjectAux]
    | Nat.succ j =>
      simp only [lboProjectAux, List.getD_cons_succ]
      match j with
      | 0 =>
        have h := ih ins (prevRev * (1 + ins.revenueGrowth))
          (prevDebt - min ((prevRev * (1 + ins.revenueGrowth) * ins.ebitdaMargin -
              prevRev * (1 + ins.revenueGrowth) * 0.05 - prevDebt * ins.interestRate) * (1 - 0.21) +
            prevRev * (1 + ins.revenueGrowth) * 0.05 - prevRev * (1 + ins.revenueGrowth) * 0.05 -
            prevRev * (1 + ins.revenueGrowth) * 0.02) prevDebt)
          (year + 1) 0 (by
            simp only [lboProjectAux, List.length_cons] at hi
            omega)
        simpa using h
      | Nat.succ k =>
        have h := ih ins (prevRev * (1 + ins.revenueGrowth))
          (prevDebt - min ((prevRev * (1 + ins.revenueGrowth) * ins.ebitdaMargin -
              prevRev * (1 + ins.revenueGrowth) * 0.05 - prevDebt * ins.interestRate) * (1 - 0.21) +
            prevRev * (1 + ins.revenueGrowth) * 0.05 - prevRev * (1 + ins.revenueGrowth) * 0.05 -
            prevRev * (1 + ins.revenueGrowth) * 0.02) prevDebt)
          (year + 1) (k + 1) (by
            simp only [lboProjectAux, List.length_cons] at hi
            omega)
        simpa using h

/-- Helper: the projected cash-flow list has one row per projection year. -/
theorem ts_aux_cf_len : ∀ (fuel : ℕ) (ins : TSInputsR) (debt0 assets0 prevRev cash : ℚ) (year : ℕ),
    (tsProjectAux ins debt0 assets0 prevRev cash year fuel).1.2.2.length = fuel := by
  intro fuel
  induction fuel with
  | zero => intro ins debt0 assets0 prevRev cash year; simp [tsProjectAux]
  | succ n ih =>
    intro ins debt0 assets0 prevRev cash year
    simp only [tsProjectAux, List.length_cons]
    rw [ih]

/-- Helper: the first emitted cash-flow row opens at the carried cash balance. -/
theorem ts_aux_cf_first : ∀ (fuel : ℕ) (ins : TSInputsR) (debt0 assets0 prevRev cash : ℚ)
    (year : ℕ), fuel ≠ 0 →
    ((tsProjectAux ins debt0 assets0 prevRev cash year fuel).1.2.2.getD 0
      TSCashFlowRow.zero).beginningCash = cash := by
  intro fuel ins debt0 assets0 prevRev cash year hf
  match fuel with
  | 0 => exact absurd rfl hf
  | n + 1 => simp [tsProjectAux]

/-- Helper: every emitted cash-flow row closes at its opening balance plus its
net change in cash. -/
theorem ts_aux_cf_balance : ∀ (fuel : ℕ) (ins : TSInputsR) (debt0 assets0 prevRev cash : ℚ)
    (year i : ℕ), i < fuel →
    ((tsProjectAux ins debt0 assets0 prevRev cash year fuel).1.2.2.getD i
        TSCashFlowRow.zero).endingCash =
      ((tsProjectAux ins debt0 assets0 prevRev cash year fuel).1.2.2.getD i
        TSCashFlowRow.zero).beginningCash +
      ((tsProjectAux ins debt0 assets0 prevRev cash year fuel).1.2.2.getD i
        TSCashFlowRow.zero).netChangeInCash := by
  intro fuel
  induction fuel with
  | zero => intro ins debt0 assets0 prevRev cash year i hi; omega
  | succ n ih =>
    intro ins debt0 assets0 prevRev cash year i hi
    match i with
    | 0 => simp [tsProjectAux]
    | Nat.succ j =>
      simp only [tsProjectAux, List.getD_cons_succ]
      exact ih ins debt0 assets0 _ _ _ j (by omega)

/-- Helper: consecutive emitted cash-flow rows thread the balance — year `y`'s
ending cash is year `y + 1`'s beginning cash. -/
theorem ts_aux_cf_chain : ∀ (fuel : ℕ) (ins : TSInputsR) (debt0 assets0 prevRev cash : ℚ)
    (year i : ℕ), i + 1 < fuel →
    ((tsProjectAux ins debt0 assets0 prevRev cash year fuel).1.2.2.getD i
        TSCashFlowRow.zero).endingCash =
      ((tsProjectAux ins debt0 assets0 prevRev cash year fuel).1.2.2.getD (i + 1)
        TSCashFlowRow.zero).beginningCash := by
  intro fuel
  induction fuel with
  | zero => intro ins debt0 assets0 prevRev cash year i hi; omega
  | succ n ih =>
    intro ins debt0 assets0 prevRev cash year i hi
    match i with
    | 0 =>
      simp only [tsProjectAux, List.getD_cons_zero, List.getD_cons_succ]
      rw [ts_aux_cf_first n ins debt0 assets0 _ _ _ (by omega)]
    | Nat.succ j =>
      simp only [tsProjectAux, List.getD_cons_succ]
      exact ih ins debt0 assets0 _ _ _ j (by omega)

/-- Claim C3: in the Three-Statement projection the cash balance is threaded
as a carry — for consecutive projection years the ending cash of year `y`
equals the beginning cash of year `y + 1`, and every year's ending cash is its
beginning cash plus its net change in cash. -/
theorem claim_C3_cash_rollforward (data : CompanyData) (ins : TSInputsR)
    (_h1 : data.incomeStatements ≠ []) (_h2 : data.cashFlowStatements ≠ [])
    (_h3 : data.balanceSheets ≠ []) :
    (tsProject data ins).1.cashFlowStatements.length = ins.projectionYears ∧
    (∀ i, i + 1 < ins.projectionYears →
      ((tsProject data ins).1.cashFlowStatements.getD i TSCashFlowRow.zero).endingCash =
        ((tsProject data ins).1.cashFlowStatements.getD (i + 1) TSCashFlowRow.zero).beginningCash) ∧
    (∀ i, i < ins.projectionYears →
      ((tsProject data ins).1.cashFlowStatements.getD i TSCashFlowRow.zero).endingCash =
        ((tsProject data ins).1.cashFlowStatements.getD i TSCashFlowRow.zero).beginningCash +
        ((tsProject data ins).1.cashFlowStatements.getD i TSCashFlowRow.zero).netChangeInCash) := by
  refine ⟨?_, ?_, ?_⟩
  · simp only [tsProject]
    exact ts_aux_cf_len _ _ _ _ _ _ _
  · intro i hi
    simp only [tsProject]
    exact ts_aux_cf_chain _ _ _ _ _ _ _ i hi
  · intro i hi
    simp only [tsProject]
    exact ts_aux_cf_balance _ _ _ _ _ _ _ i hi

/-- Witness for claim C3: on the concrete snapshot `dataTS` with inputs
`tsInsC2`, year 1's ending cash is year 2's beginning cash. -/
theorem claim_C3_cash_rollforward_witness :
    ((tsProject dataTS tsInsC2).1.cashFlowStatements.getD 0 TSCashFlowRow.zero).endingCash =
      ((tsProject dataTS tsInsC2).1.cashFlowStatements.getD 1 TSCashFlowRow.zero).beginningCash :=
  (claim_C3_cash_rollforward dataTS tsInsC2 (by simp [dataTS]) (by simp [dataTS])
    (by simp [dataTS])).2.1 0 (by norm_num [tsInsC2, tsDefaults])

/-- Claim C4: for every snapshot and every resolved LBO input set, the
outstanding debt after the cash-sweep repayment is non-negative in every
projected year, and every year's repayment equals `min(freeCashFlow,
remaining debt)` (the remaining debt before year 1 being the entry debt);
in particular once the remaining debt is 0 the sweep repays at most 0 and the
debt stays non-negative. -/
theorem claim_C4_lbo_debt_floor (data : CompanyData) (ins : LBOInputsR) :
    (∀ p ∈ lboProjections data ins, 0 ≤ p.endingDebt) ∧
    (∀ i, i < (lboProjections data ins).length →
      ((lboProjections data ins).getD i LBOProjection.zero).debtRepayment =
        min ((lboProjections data ins).getD i LBOProjection.zero).freeCashFlow
          (if i = 0 then lboTotalDebt data ins
           else ((lboProjections data ins).getD (i-1) LBOProjection.zero).endingDebt)) := by
  constructor
  · intro p hp
    exact lbo_aux_nonneg ins.holdingPeriod ins (lastStmt data.incomeStatements).revenue
      (lboTotalDebt data ins) 1 p hp
  · intro i hi
    exact (lbo_aux_chain ins.holdingPeriod ins (lastStmt data.incomeStatements).revenue
      (lboTotalDebt data ins) 1 i hi).1

/-- Witness for claim C4 at a concrete snapshot and one-year hold. -/
theorem claim_C4_lbo_debt_floor_witness :
    0 ≤ ((lboProjections dataLeak lboInsW).getD 0 LBOProjection.zero).endingDebt ∧
    ((lboProjections dataLeak lboInsW).getD 0 LBOProjection.zero).debtRepayment =
      min ((lboProjections dataLeak lboInsW).getD 0 LBOProjection.zero).freeCashFlow
        (lboTotalDebt dataLeak lboInsW) := by
  have hne : lboProjections dataLeak lboInsW ≠ [] := by
    simp [lboProjections, lboProjectAux, lboInsW]
  constructor
  · exact (claim_C4_lbo_debt_floor dataLeak lboInsW).1 _ (getD_zero_mem _ _ hne)
  · have hlen : 0 < (lboProjections dataLeak lboInsW).length := by
      cases h : lboProjections dataLeak lboInsW with
      | nil => exact absurd h hne
      | cons a t => simp
    have h := (claim_C4_lbo_debt_floor dataLeak lboInsW).2 0 hlen
    simpa using h

/-- Claim C8, counterexample: with beta 1 the constructor's default WACC is
`0.07248`, while the claimed formula (CAPM cost of equity weighted 70% plus an
after-tax cost of debt of 4% weighted 30%) gives `0.075` — the code further
multiplies the 4% cost of debt by `(1 - 0.21)`. -/
theorem claim_C8_counterexample :
    (mkDCFInputs dataLeak { }).wacc = 0.07248 ∧
    specClaimedDefaultWACC 1 = 0.075 ∧
    (mkDCFInputs dataLeak { }).wacc ≠ specClaimedDefaultWACC 1 := by
  refine ⟨?_, ?_, ?_⟩ <;>
    norm_num [mkDCFInputs, effBeta, jsOr, dataLeak, specClaimedDefaultWACC]

/-- Claim C8, amended: when no wacc override is supplied, the default WACC is
the CAPM cost of equity (`0.04 + beta * 0.05`, beta defaulting to 1 when
absent) weighted 70%, plus a *pre-tax* cost of debt of 4% that is tax-adjusted
at the fixed 21% rate, weighted 30%. -/
theorem claim_C8_default_wacc (data : CompanyData) (inputs : DCFInputs)
    (hw : inputs.wacc = none) :
    (mkDCFInputs data inputs).wacc =
      (0.04 + effBeta data.profile * 0.05) * 0.7 + 0.04 * (1 - 0.21) * 0.3 ∧
    (data.profile.beta = none → effBeta data.profile = 1) := by
  constructor
  · simp only [mkDCFInputs, hw, Option.getD_none]
    ring
  · intro h
    simp [effBeta, jsOr, h]

/-- Witness for the amended C8 theorem at a concrete snapshot with beta 1. -/
theorem claim_C8_default_wacc_witness :
    (mkDCFInputs dataLeak { }).wacc = 0.07248 := by
  have h := (claim_C8_default_wacc dataLeak { } rfl).1
  rw [h]
  norm_num [effBeta, jsOr, dataLeak]

/-- Claim C1 fails on the code: `sensitivityAnalysis` does restore the
instance's `wacc`/`terminalGrowth`, but every inner `calculate()` writes the
final projected revenue into the snapshot's last income statement
(`lastStatement.revenue = currentRevenue`), so `calculate()` before the sweep
returns an implied price of 123 while `calculate()` after the sweep returns
125952 on the concrete snapshot `dataLeak` — the results are not identical
and residual state is left behind. -/
theorem claim_C1_sensitivity_residual_state :
    (sensitivityAnalysis (dcfCalculate dataLeak insLeak).2 insLeak [1] [0]).2.1 = insLeak ∧
    (dcfCalculate dataLeak insLeak).1.impliedSharePrice = 123 ∧
    (dcfCalculate
        (sensitivityAnalysis (dcfCalculate dataLeak insLeak).2 insLeak [1] [0]).2.2
        (sensitivityAnalysis (dcfCalculate dataLeak insLeak).2 insLeak [1] [0]).2.1
      ).1.impliedSharePrice = 125952 ∧
    ((123 : ℚ) = 125952 → False) := by
  refine ⟨rfl, ?_, ?_, by norm_num⟩
  · norm_num [dcfCalculate, dcfCalculateProjections, dcfProjectAux, dcfTerminalValue,
      dcfEnterpriseValue, jsOrIdx, lastStmt, lastBal, setLastRevenue, dataLeak, insLeak,
      DCFProjection.zero, FinancialStatement.zero, BalanceSheet.zero]
  · norm_num [sensitivityAnalysis, sensRows, sensRow, dcfCalculate,
      dcfCalculateProjections, dcfProjectAux, dcfTerminalValue, dcfEnterpriseValue,
      jsOrIdx, lastStmt, lastBal, setLastRevenue, dataLeak, insLeak,
      DCFProjection.zero, FinancialStatement.zero, BalanceSheet.zero]

/-- Claim C2 fails on the code: `DCFModel.calculate()` rewrites the caller's
last income-statement revenue (100 becomes 3200 on `dataLeak`), and
`ThreeStatementModel.project()` assigns its rolling ending cash to the shared
last balance-sheet object rather than a working copy (0 becomes 79 on
`dataTS`) — both models leak into the caller's snapshot. -/
theorem claim_C2_snapshot_mutated :
    (lastStmt dataLeak.incomeStatements).revenue = 100 ∧
    (lastStmt (dcfCalculate dataLeak insLeak).2.incomeStatements).revenue = 3200 ∧
    (lastBal dataTS.balanceSheets).cashAndEquivalents = 0 ∧
    (lastBal (tsProject dataTS tsInsC2).2.balanceSheets).cashAndEquivalents = 79 ∧
    ((100 : ℚ) = 3200 → False) ∧ ((0 : ℚ) = 79 → False) := by
  refine ⟨?_, ?_, ?_, ?_, by norm_num, by norm_num⟩
  · norm_num [lastStmt, dataLeak]
  · norm_num [dcfCalculate, dcfCalculateProjections, dcfProjectAux, jsOrIdx, lastStmt,
      setLastRevenue, dataLeak, insLeak, FinancialStatement.zero]
  · norm_num [lastBal, dataTS]
  · norm_num [tsProject, tsProjectAux, jsOrIdx, lastStmt, lastBal, setLastCash,
      dataTS, tsInsC2, tsDefaults, FinancialStatement.zero, BalanceSheet.zero]

/-- Claim C7 fails on the code as stated: the loop reads
`revenueGrowth[y-1] || revenueGrowth[length-1]`, and the JS `||` treats a
stored growth rate of `0` as falsy, so with the supplied array `[0, 0.1]`
year 1 applies `0.1` (the last rate) instead of the in-range entry `0`: the
first projected revenue is 110, not `100 * (1 + 0)`. -/
theorem claim_C7_counterexample :
    insZeroGrowth.revenueGrowth.getD 0 0 = 0 ∧
    jsOrIdx insZeroGrowth.revenueGrowth 0 = 0.1 ∧
    ((dcfCalculateProjections dataLeak insZeroGrowth).1.getD 0 DCFProjection.zero).revenue
      = 110 ∧
    ((110 : ℚ) = 100 * (1 + 0) → False) := by
  refine ⟨?_, ?_, ?_, by norm_num⟩
  · norm_num [insZeroGrowth]
  · norm_num [jsOrIdx, insZeroGrowth]
  · norm_num [dcfCalculateProjections, dcfProjectAux, jsOrIdx, lastStmt, dataLeak,
      insZeroGrowth]

/-- Claim C7, amended: the applied growth rate for projection year `y` is
`revenueGrowth[y-1]` whenever that entry is in range *and nonzero*; when the
array is shorter than `y` — or the in-range entry is `0`, which the `||`
default also treats as absent — the last supplied rate is applied instead.
The same selection feeds the compounded revenue of both the DCF and the
Three-Statement projection loops. -/
theorem claim_C7_growth_fallback :
    (∀ (arr : List ℚ) (y : ℕ), 1 ≤ y → y ≤ arr.length → arr.getD (y - 1) 0 ≠ 0 →
      jsOrIdx arr (y - 1) = arr.getD (y - 1) 0) ∧
    (∀ (arr : List ℚ) (y : ℕ), arr.length < y →
      jsOrIdx arr (y - 1) = arr.getD (arr.length - 1) 0) ∧
    (∀ (arr : List ℚ) (y : ℕ), arr.getD (y - 1) 0 = 0 →
      jsOrIdx arr (y - 1) = arr.getD (arr.length - 1) 0) ∧
    (∀ (ins : DCFInputsR) (prevRev : ℚ) (year fuel : ℕ),
      ((dcfProjectAux ins prevRev year (fuel + 1)).1.getD 0 DCFProjection.zero).revenue =
        prevRev * (1 + jsOrIdx ins.revenueGrowth (year - 1))) ∧
    (∀ (ins : TSInputsR) (debt0 assets0 prevRev cash : ℚ) (year fuel : ℕ),
      ((tsProjectAux ins debt0 assets0 prevRev cash year (fuel + 1)).1.1.getD 0
        TSIncomeRow.zero).revenue = prevRev * (1 + jsOrIdx ins.revenueGrowth (year - 1))) := by
  refine ⟨?_, ?_, ?_, ?_, ?_⟩
  · intro arr y _h1 _h2 h3
    simp only [jsOrIdx]
    rw [if_neg h3]
  · intro arr y hy
    have h : arr.getD (y - 1) 0 = 0 := List.getD_eq_default _ _ (by omega)
    simp only [jsOrIdx]
    rw [if_pos h]
  · intro arr y h
    simp only [jsOrIdx]
    rw [if_pos h]
  · intro ins prevRev year fuel
    simp [dcfProjectAux]
  · intro ins debt0 assets0 prevRev cash year fuel
    simp [tsProjectAux]

/-- Witness for the amended C7 theorem: a nonzero in-range entry is used as
is, and a year beyond the array length falls back to the last entry. -/
theorem claim_C7_growth_fallback_witness :
    jsOrIdx [(0.15 : ℚ)] 0 = ([(0.15 : ℚ)]).getD 0 0 ∧
    jsOrIdx [(0.15 : ℚ)] 1 = ([(0.15 : ℚ)]).getD 0 0 := by
  constructor
  · exact claim_C7_growth_fallback.1 [(0.15 : ℚ)] 1 (by norm_num) (by norm_num)
      (by norm_num)
  · exact claim_C7_growth_fallback.2.1 [(0.15 : ℚ)] 2 (by norm_num)

/-- Helper: the nearest-rank index `floor((p / 100) * (n - 1))` is in range
for a non-empty list and a percentile between 0 and 100. -/
theorem pct_index_lt (n : ℕ) (hn : 1 ≤ n) (p : ℚ) (_hp0 : 0 ≤ p) (hp1 : p ≤ 100) :
    (⌊p / 100 * ((n : ℚ) - 1)⌋).toNat < n := by
  have h2 : (0:ℚ) ≤ (n:ℚ) - 1 := by
    have : (1:ℚ) ≤ (n:ℚ) := by exact_mod_cast hn
    linarith
  have hx : p / 100 * ((n : ℚ) - 1) ≤ ((n : ℚ) - 1) := by
    have h1 : p / 100 ≤ 1 := by
      rw [div_le_one] <;> linarith
    nlinarith
  have hcast : ((n : ℚ) - 1) = (((n : ℤ) - 1 : ℤ) : ℚ) := by push_cast; ring
  have hfloor : ⌊p / 100 * ((n : ℚ) - 1)⌋ ≤ (n : ℤ) - 1 := by
    calc ⌊p / 100 * ((n : ℚ) - 1)⌋ ≤ ⌊(((n : ℤ) - 1 : ℤ) : ℚ)⌋ :=
          Int.floor_le_floor (hcast ▸ hx)
      _ = (n : ℤ) - 1 := Int.floor_intCast _
  omega

/-- Claim C5: both models' percentile helper is exactly the nearest-rank
algorithm — sort ascending, take the element at `floor((p / 100) * (n - 1))`
(an in-range index of an actual observation, no interpolation) — and on
`[10, 20, 30, 40]` the 25th percentile is 10 and the 50th percentile is 20. -/
theorem claim_C5_percentile_nearest_rank :
    (∀ (values : List ℚ) (p : ℚ), values ≠ [] → 0 ≤ p → p ≤ 100 →
      List.Sorted (· ≤ ·) (values.insertionSort (· ≤ ·)) ∧
      (values.insertionSort (· ≤ ·)).Perm values ∧
      (⌊p / 100 * ((values.length : ℚ) - 1)⌋).toNat < values.length ∧
      CompsModel.calculatePercentile values p =
        (values.insertionSort (· ≤ ·)).getD
          ((⌊p / 100 * ((values.length : ℚ) - 1)⌋).toNat) 0 ∧
      PrecedentTransactionModel.calculatePercentile values p =
        CompsModel.calculatePercentile values p) ∧
    CompsModel.calculatePercentile [10, 20, 30, 40] 25 = 10 ∧
    CompsModel.calculatePercentile [10, 20, 30, 40] 50 = 20 ∧
    PrecedentTransactionModel.calculatePercentile [10, 20, 30, 40] 25 = 10 ∧
    PrecedentTransactionModel.calculatePercentile [10, 20, 30, 40] 50 = 20 := by
  refine ⟨?_, ?_, ?_, ?_, ?_⟩
  · intro values p hne hp0 hp1
    have hperm := List.perm_insertionSort (· ≤ ·) values
    have hlen : (values.insertionSort (· ≤ ·)).length = values.length := hperm.length_eq
    refine ⟨List.sorted_insertionSort _ _, hperm, ?_, ?_, rfl⟩
    · exact pct_index_lt values.length (List.length_pos.mpr hne) p hp0 hp1
    · simp only [CompsModel.calculatePercentile, hlen]
  · norm_num [CompsModel.calculatePercentile, List.insertionSort, List.orderedInsert]
  · norm_num [CompsModel.calculatePercentile, List.insertionSort, List.orderedInsert]
  · norm_num [PrecedentTransactionModel.calculatePercentile, List.insertionSort,
      List.orderedInsert]
  · norm_num [PrecedentTransactionModel.calculatePercentile, List.insertionSort,
      List.orderedInsert]

/-- Witness for claim C5's universal part at `[10, 20, 30, 40]`, p = 75. -/
theorem claim_C5_percentile_nearest_rank_witness :
    List.Sorted (· ≤ ·) (([10, 20, 30, 40] : List ℚ).insertionSort (· ≤ ·)) ∧
    (([10, 20, 30, 40] : List ℚ).insertionSort (· ≤ ·)).Perm [10, 20, 30, 40] ∧
    (⌊(75 : ℚ) / 100 * ((([10, 20, 30, 40] : List ℚ).length : ℚ) - 1)⌋).toNat <
      ([10, 20, 30, 40] : List ℚ).length ∧
    CompsModel.calculatePercentile [10, 20, 30, 40] 75 =
      (([10, 20, 30, 40] : List ℚ).insertionSort (· ≤ ·)).getD
        ((⌊(75 : ℚ) / 100 * ((([10, 20, 30, 40] : List ℚ).length : ℚ) - 1)⌋).toNat) 0 ∧
    PrecedentTransactionModel.calculatePercentile [10, 20, 30, 40] 75 =
      CompsModel.calculatePercentile [10, 20, 30, 40] 75 :=
  claim_C5_percentile_nearest_rank.1 [10, 20, 30, 40] 75 (by simp)
    (by norm_num) (by norm_num)

/-- Claim C9 fails on the code as stated: on the concrete pair
`acqC9`/`tgtC9` the supplied mix is `(cash 0, stock 1, debt 0)` with zero
synergies, the offer's implied target P/E is 13 against an acquirer P/E of 10,
yet the model reports `isAccretive = true`.  Two causes: the `||` defaults
replace the supplied `cashPercent = 0` / `debtPercent = 0` with 0.40 / 0.20,
and the pro-forma net income is recomputed from combined operating income
(85.6676 here) rather than from the reported net incomes (10 + 10), so the
P/E comparison does not bound the pro-forma EPS. -/
theorem claim_C9_counterexample :
    (maAnalyze acqC9 tgtC9 insC9).deal.totalConsideration /
        (lastStmt tgtC9.incomeStatements).netIncome = 13 ∧
    acqC9.stockPrice.current / (maAnalyze acqC9 tgtC9 insC9).acquirerStandalone.eps = 10 ∧
    ((10 : ℚ) < 13) ∧
    (maAnalyze acqC9 tgtC9 insC9).accretionDilution.isAccretive = true := by
  refine ⟨?_, ?_, by norm_num, ?_⟩ <;>
    norm_num [maAnalyze, mkMAInputs, maDeal, maStandalone, maProForma,
      maAccretionDilution, jsOr, lastStmt, acqC9, tgtC9, insC9]

/-- Claim C9, amended: with the claim's deal terms (zero synergies and the
nominal all-stock mix `cashPercent = 0`, `stockPercent = 1`,
`debtPercent = 0`), positive reported net incomes, share count, acquirer
price and consideration, an offer whose implied target P/E exceeds the
acquirer's P/E, *and* a pro-forma net income (as the model recomputes it) not
exceeding the sum of the reported net incomes, the model reports
`isAccretive = false`. -/
theorem claim_C9_stock_deal_dilutive (acquirer target : CompanyData) (inputs : MAInputs)
    (_hcash : inputs.cashPercent = some 0)
    (hstock : inputs.stockPercent = some 1)
    (_hdebt : inputs.debtPercent = some 0)
    (_hsynC : inputs.synergiesCost = some 0)
    (_hsynR : inputs.synergiesRevenue = some 0)
    (hNIA : 0 < (lastStmt acquirer.incomeStatements).netIncome)
    (hNIT : 0 < (lastStmt target.incomeStatements).netIncome)
    (hsA : 0 < acquirer.profile.sharesOutstanding)
    (hpA : 0 < acquirer.stockPrice.current)
    (hTC : 0 < (maAnalyze acquirer target inputs).deal.totalConsideration)
    (hPE : acquirer.stockPrice.current / (maAnalyze acquirer target inputs).acquirerStandalone.eps <
           (maAnalyze acquirer target inputs).deal.totalConsideration /
             (lastStmt target.incomeStatements).netIncome)
    (hNIPF : (maAnalyze acquirer target inputs).proForma.netIncome ≤
      (lastStmt acquirer.incomeStatements).netIncome +
      (lastStmt target.incomeStatements).netIncome) :
    (maAnalyze acquirer target inputs).accretionDilution.isAccretive = false := by
  set NA := (lastStmt acquirer.incomeStatements).netIncome with hNAdef
  set NT := (lastStmt target.incomeStatements).netIncome with hNTdef
  set sA := acquirer.profile.sharesOutstanding with hsAdef
  set pA := acquirer.stockPrice.current with hpAdef
  set TC := (maAnalyze acquirer target inputs).deal.totalConsideration with hTCdef
  set NIPF := (maAnalyze acquirer target inputs).proForma.netIncome with hNIPFdef
  have hsp : (mkMAInputs target inputs).stockPercent = 1 := by
    simp [mkMAInputs, hstock, jsOr]
  have hshIss : (maAnalyze acquirer target inputs).deal.sharesIssued = TC / pA := by
    show (maAnalyze acquirer target inputs).deal.totalConsideration *
        (mkMAInputs target inputs).stockPercent / acquirer.stockPrice.current = TC / pA
    rw [hsp, mul_one]
  have hPFsh : (maAnalyze acquirer target inputs).proForma.sharesOutstanding =
      sA + TC / pA := by
    show acquirer.profile.sharesOutstanding +
        (maAnalyze acquirer target inputs).deal.sharesIssued = sA + TC / pA
    rw [hshIss]
  have hPFeps : (maAnalyze acquirer target inputs).proForma.eps =
      NIPF / (sA + TC / pA) := by
    show (maAnalyze acquirer target inputs).proForma.netIncome /
        (maAnalyze acquirer target inputs).proForma.sharesOutstanding = _
    rw [hPFsh]
  have hSTDeps : (maAnalyze acquirer target inputs).acquirerStandalone.eps = NA / sA := rfl
  have hden : 0 < sA + TC / pA := add_pos hsA (div_pos hTC hpA)
  have hPE1 : pA * sA / NA < TC / NT := by
    rw [hSTDeps, div_div_eq_mul_div] at hPE
    exact hPE
  have h1 : pA * sA * NT < TC * NA := (div_lt_div_iff₀ hNIA hNIT).mp hPE1
  have h2 : NT * sA < NA * (TC / pA) := by
    rw [mul_div_assoc'] at *
    rw [lt_div_iff₀ hpA]
    nlinarith [h1]
  have hmain : (NA + NT) / (sA + TC / pA) < NA / sA := by
    rw [div_lt_div_iff₀ hden hsA]
    nlinarith [h2]
  have hle : NIPF / (sA + TC / pA) ≤ (NA + NT) / (sA + TC / pA) :=
    div_le_div_iff_of_pos_right hden |>.mpr hNIPF
  have hfinal : (maAnalyze acquirer target inputs).proForma.eps <
      (maAnalyze acquirer target inputs).acquirerStandalone.eps := by
    rw [hPFeps, hSTDeps]
    exact lt_of_le_of_lt hle hmain
  show (if 0 < (maAnalyze acquirer target inputs).proForma.eps -
      (maAnalyze acquirer target inputs).acquirerStandalone.eps then true else false) = false
  rw [if_neg]
  intro h
  linarith

/-- Witness for the amended C9 theorem at the concrete pair `acqW9`/`tgtC9`
(an acquirer whose reported net income matches the model's recomputation). -/
theorem claim_C9_stock_deal_dilutive_witness :
    (maAnalyze acqW9 tgtC9 insC9).accretionDilution.isAccretive = false :=
  claim_C9_stock_deal_dilutive acqW9 tgtC9 insC9 rfl rfl rfl rfl rfl
    (by norm_num [lastStmt, acqW9])
    (by norm_num [lastStmt, tgtC9])
    (by norm_num [acqW9])
    (by norm_num [acqW9])
    (by norm_num [maAnalyze, mkMAInputs, maDeal, jsOr, lastStmt, acqW9, tgtC9, insC9])
    (by norm_num [maAnalyze, mkMAInputs, maDeal, maStandalone, jsOr, lastStmt,
      acqW9, tgtC9, insC9])
    (by norm_num [maAnalyze, mkMAInputs, maDeal, maProForma, jsOr, lastStmt,
      acqW9, tgtC9, insC9])

/-- Claim C10: all randomness of the Comps and Precedent Transaction models is
confined to the constructor.  `analyze()` neither draws from nor advances the
ambient random stream, its result does not depend on the stream passed at call
time, and two successive `analyze()` calls on the same instance return
identical results. -/
theorem claim_C10_randomness_confined :
    ∀ (data : CompanyData) (rng rng1 rng2 : RNG),
      (compsAnalyze (mkCompsModel data rng).1 rng1).1 =
        (compsAnalyze (mkCompsModel data rng).1 rng2).1 ∧
      (compsAnalyze (mkCompsModel data rng).1 rng1).2 = rng1 ∧
      (compsAnalyze (mkCompsModel data rng).1
          (compsAnalyze (mkCompsModel data rng).1 rng1).2).1 =
        (compsAnalyze (mkCompsModel data rng).1 rng1).1 ∧
      (precedentAnalyze (mkPrecedentModel data rng).1 rng1).1 =
        (precedentAnalyze (mkPrecedentModel data rng).1 rng2).1 ∧
      (precedentAnalyze (mkPrecedentModel data rng).1 rng1).2 = rng1 ∧
      (precedentAnalyze (mkPrecedentModel data rng).1
          (precedentAnalyze (mkPrecedentModel data rng).1 rng1).2).1 =
        (precedentAnalyze (mkPrecedentModel data rng).1 rng1).1 :=
  fun _ _ _ _ => ⟨rfl, rfl, rfl, rfl, rfl, rfl⟩


/-- Helper: the last element of a non-empty list is a member. -/
theorem getLastD_mem' {α : Type} : ∀ (l : List α) (d : α), l ≠ [] → l.getLastD d ∈ l := by
  intro l
  induction l with
  | nil => intro d h; exact absurd rfl h
  | cons a t ih =>
    intro d _
    cases ht : t with
    | nil => simp [ht]
    | cons b u =>
      subst ht
      rw [List.getLastD_cons]
      exact List.mem_cons_of_mem a (ih a (by simp))

/-- Helper: the projected FCF column does not depend on the discount rate —
only the growth vector and tax rate feed it. -/
theorem dcf_aux_map_fcf (ins1 ins2 : DCFInputsR)
    (hg : ins1.revenueGrowth = ins2.revenueGrowth) (ht : ins1.taxRate = ins2.taxRate) :
    ∀ (fuel : ℕ) (prev : ℚ) (year : ℕ),
    ((dcfProjectAux ins2 prev year fuel).1).map (fun p => p.fcf) =
    ((dcfProjectAux ins1 prev year fuel).1).map (fun p => p.fcf) := by
  intro fuel
  induction fuel with
  | zero => intro prev year; simp [dcfProjectAux]
  | succ n ih =>
    intro prev year
    simp only [dcfProjectAux, List.map_cons]
    rw [← hg, ← ht, ih]

/-- Helper: lists with equal FCF columns have equal last-element FCF. -/
theorem getLastD_fcf_map : ∀ (l2 l1 : List DCFProjection) (d2 d1 : DCFProjection),
    l2.map (fun p => p.fcf) = l1.map (fun p => p.fcf) → d2.fcf = d1.fcf →
    (l2.getLastD d2).fcf = (l1.getLastD d1).fcf := by
  intro l2
  induction l2 with
  | nil =>
    intro l1 d2 d1 hm hd
    cases l1 with
    | nil => simpa using hd
    | cons b u => simp at hm
  | cons a t ih =>
    intro l1 d2 d1 hm hd
    cases l1 with
    | nil => simp at hm
    | cons b u =>
      simp only [List.map_cons, List.cons.injEq] at hm
      rw [List.getLastD_cons, List.getLastD_cons]
      exact ih u a b hm.2 hm.1

/-- Helper: FCF positivity transfers between runs that differ only in the
discount rate. -/
theorem dcf_aux_fcf_pos_transfer (ins1 ins2 : DCFInputsR)
    (hg : ins1.revenueGrowth = ins2.revenueGrowth) (ht : ins1.taxRate = ins2.taxRate)
    (fuel : ℕ) (prev : ℚ) (year : ℕ)
    (hpos : ∀ p ∈ (dcfProjectAux ins1 prev year fuel).1, 0 < p.fcf) :
    ∀ p ∈ (dcfProjectAux ins2 prev year fuel).1, 0 < p.fcf := by
  intro p hp
  have hmem : p.fcf ∈ ((dcfProjectAux ins2 prev year fuel).1).map (fun p => p.fcf) :=
    List.mem_map_of_mem _ hp
  rw [dcf_aux_map_fcf ins1 ins2 hg ht] at hmem
  obtain ⟨q, hq, hqe⟩ := List.mem_map.mp hmem
  rw [← hqe]
  exact hpos q hq

/-- Helper: with positive projected FCFs, the running present-value sum under
the larger discount rate stays strictly below the one under the smaller rate
(strict in the accumulators). -/
theorem dcf_pv_foldl_strict (ins1 ins2 : DCFInputsR)
    (hg : ins1.revenueGrowth = ins2.revenueGrowth) (ht : ins1.taxRate = ins2.taxRate)
    (h1 : 0 < 1 + ins1.wacc) (h12 : ins1.wacc < ins2.wacc) :
    ∀ (fuel : ℕ) (prev : ℚ) (year : ℕ), year ≠ 0 →
    (∀ p ∈ (dcfProjectAux ins1 prev year fuel).1, 0 < p.fcf) →
    ∀ s2 s1 : ℚ, s2 < s1 →
    ((dcfProjectAux ins2 prev year fuel).1).foldl (fun a p => a + p.presentValue) s2 <
    ((dcfProjectAux ins1 prev year fuel).1).foldl (fun a p => a + p.presentValue) s1 := by
  intro fuel
  induction fuel with
  | zero =>
    intro prev year hy hpos s2 s1 hs
    simpa [dcfProjectAux] using hs
  | succ n ih =>
    intro prev year hy hpos s2 s1 hs
    simp only [dcfProjectAux, List.foldl_cons]
    rw [← hg, ← ht]
    have hfcfhead : 0 <
        (prev * (1 + jsOrIdx ins1.revenueGrowth (year - 1)) * 0.30 -
            prev * (1 + jsOrIdx ins1.revenueGrowth (year - 1)) * 0.05) * (1 - ins1.taxRate) +
          prev * (1 + jsOrIdx ins1.revenueGrowth (year - 1)) * 0.05 -
          prev * (1 + jsOrIdx ins1.revenueGrowth (year - 1)) * 0.08 -
          (prev * (1 + jsOrIdx ins1.revenueGrowth (year - 1)) - prev) * 0.03 := by
      have := hpos _ (List.mem_cons_self _ _)
      simpa [dcfProjectAux] using this
    have hpow : (1 + ins1.wacc) ^ year < (1 + ins2.wacc) ^ year :=
      pow_lt_pow_left₀ (by linarith) (le_of_lt h1) hy
    have hpv : _ / (1 + ins2.wacc) ^ year < _ / (1 + ins1.wacc) ^ year :=
      div_lt_div_of_pos_left hfcfhead (pow_pos h1 year) hpow
    have hpos' : ∀ p ∈ (dcfProjectAux ins1
        (prev * (1 + jsOrIdx ins1.revenueGrowth (year - 1))) (year + 1) n).1, 0 < p.fcf := by
      intro p hp
      exact hpos p (List.mem_cons_of_mem _ hp)
    exact ih _ (year + 1) (by omega) hpos' _ _ (by linarith)

/-- Helper: at least one projection row is emitted when the horizon is
positive. -/
theorem dcf_aux_ne_nil (ins : DCFInputsR) (prev : ℚ) (year fuel : ℕ) (hf : fuel ≠ 0) :
    (dcfProjectAux ins prev year fuel).1 ≠ [] := by
  match fuel with
  | 0 => exact absurd rfl hf
  | n + 1 => simp [dcfProjectAux]

/-- Helper: with positive projected FCFs and a positive horizon, the total
present-value sum is strictly smaller under the larger discount rate. -/
theorem dcf_pv_foldl_strict0 (ins1 ins2 : DCFInputsR)
    (hg : ins1.revenueGrowth = ins2.revenueGrowth) (ht : ins1.taxRate = ins2.taxRate)
    (h1 : 0 < 1 + ins1.wacc) (h12 : ins1.wacc < ins2.wacc)
    (fuel : ℕ) (hf : fuel ≠ 0) (prev : ℚ) (year : ℕ) (hy : year ≠ 0)
    (hpos : ∀ p ∈ (dcfProjectAux ins1 prev year fuel).1, 0 < p.fcf) :
    ((dcfProjectAux ins2 prev year fuel).1).foldl (fun a p => a + p.presentValue) 0 <
    ((dcfProjectAux ins1 prev year fuel).1).foldl (fun a p => a + p.presentValue) 0 := by
  match fuel with
  | 0 => exact absurd rfl hf
  | n + 1 =>
    simp only [dcfProjectAux, List.foldl_cons]
    rw [← hg, ← ht]
    have hfcfhead : 0 <
        (prev * (1 + jsOrIdx ins1.revenueGrowth (year - 1)) * 0.30 -
            prev * (1 + jsOrIdx ins1.revenueGrowth (year - 1)) * 0.05) * (1 - ins1.taxRate) +
          prev * (1 + jsOrIdx ins1.revenueGrowth (year - 1)) * 0.05 -
          prev * (1 + jsOrIdx ins1.revenueGrowth (year - 1)) * 0.08 -
          (prev * (1 + jsOrIdx ins1.revenueGrowth (year - 1)) - prev) * 0.03 := by
      have := hpos _ (List.mem_cons_self _ _)
      simpa [dcfProjectAux] using this
    have hpow : (1 + ins1.wacc) ^ year < (1 + ins2.wacc) ^ year :=
      pow_lt_pow_left₀ (by linarith) (le_of_lt h1) hy
    have hpv : _ / (1 + ins2.wacc) ^ year < _ / (1 + ins1.wacc) ^ year :=
      div_lt_div_of_pos_left hfcfhead (pow_pos h1 year) hpow
    have hpos' : ∀ p ∈ (dcfProjectAux ins1
        (prev * (1 + jsOrIdx ins1.revenueGrowth (year - 1))) (year + 1) n).1, 0 < p.fcf := by
      intro p hp
      exact hpos p (List.mem_cons_of_mem _ hp)
    exact dcf_pv_foldl_strict ins1 ins2 hg ht h1 h12 n _ (year + 1) (by omega) hpos'
      _ _ (by linarith)

/-- Claim C6, amended: the implied share price is strictly decreasing in the
WACC provided the snapshot and inputs are non-degenerate — positive shares
outstanding, a positive projection horizon, `terminalGrowth < w1 < w2` with
`1 + w1 > 0` and `1 + terminalGrowth > 0`, and all projected FCFs positive.
(The unrestricted claim is false: see the counterexample with negative
revenue.) -/
theorem claim_C6_price_strictly_decreasing_in_wacc (data : CompanyData) (ins : DCFInputsR) (w1 w2 : ℚ)
    (hy : ins.projectionYears ≠ 0)
    (hsh : 0 < data.profile.sharesOutstanding)
    (h1 : 0 < 1 + w1) (h12 : w1 < w2)
    (hg1 : ins.terminalGrowth < w1) (hgm : 0 < 1 + ins.terminalGrowth)
    (hfcf : ∀ p ∈ (dcfCalculate data { ins with wacc := w1 }).1.projections, 0 < p.fcf) :
    (dcfCalculate data { ins with wacc := w2 }).1.impliedSharePrice <
    (dcfCalculate data { ins with wacc := w1 }).1.impliedSharePrice := by
  have hgeq : ({ ins with wacc := w1 } : DCFInputsR).revenueGrowth =
      ({ ins with wacc := w2 } : DCFInputsR).revenueGrowth := rfl
  have hteq : ({ ins with wacc := w1 } : DCFInputsR).taxRate =
      ({ ins with wacc := w2 } : DCFInputsR).taxRate := rfl
  have h1' : 0 < 1 + ({ ins with wacc := w1 } : DCFInputsR).wacc := h1
  have h12' : ({ ins with wacc := w1 } : DCFInputsR).wacc <
      ({ ins with wacc := w2 } : DCFInputsR).wacc := h12
  have hpos1 : ∀ p ∈ (dcfProjectAux { ins with wacc := w1 }
      (lastStmt data.incomeStatements).revenue 1 ins.projectionYears).1, 0 < p.fcf := by
    intro p hp
    exact hfcf p hp
  have hsum : ((dcfProjectAux { ins with wacc := w2 }
      (lastStmt data.incomeStatements).revenue 1 ins.projectionYears).1).foldl
      (fun a p => a + p.presentValue) 0 <
      ((dcfProjectAux { ins with wacc := w1 }
      (lastStmt data.incomeStatements).revenue 1 ins.projectionYears).1).foldl
      (fun a p => a + p.presentValue) 0 :=
    dcf_pv_foldl_strict0 _ _ hgeq hteq h1' h12' ins.projectionYears hy _ 1 (by omega) hpos1
  have hlast : ((dcfProjectAux { ins with wacc := w2 }
      (lastStmt data.incomeStatements).revenue 1 ins.projectionYears).1.getLastD
      DCFProjection.zero).fcf =
      ((dcfProjectAux { ins with wacc := w1 }
      (lastStmt data.incomeStatements).revenue 1 ins.projectionYears).1.getLastD
      DCFProjection.zero).fcf :=
    getLastD_fcf_map _ _ _ _ (dcf_aux_map_fcf _ _ hgeq hteq ins.projectionYears _ 1) rfl
  have hlastpos : 0 < ((dcfProjectAux { ins with wacc := w1 }
      (lastStmt data.incomeStatements).revenue 1 ins.projectionYears).1.getLastD
      DCFProjection.zero).fcf :=
    hpos1 _ (getLastD_mem' _ _ (dcf_aux_ne_nil _ _ _ _ hy))
  have hpowpos1 : (0:ℚ) < (1 + w1) ^ ins.projectionYears := pow_pos h1 _
  have hpowlt : (1 + w1) ^ ins.projectionYears < (1 + w2) ^ ins.projectionYears :=
    pow_lt_pow_left₀ (by linarith) (le_of_lt h1) hy
  have hDpos : 0 < (w1 - ins.terminalGrowth) * (1 + w1) ^ ins.projectionYears :=
    mul_pos (by linarith) hpowpos1
  have hDlt : (w1 - ins.terminalGrowth) * (1 + w1) ^ ins.projectionYears <
      (w2 - ins.terminalGrowth) * (1 + w2) ^ ins.projectionYears :=
    mul_lt_mul'' (by linarith) hpowlt (by linarith) (by positivity)
  have hA : 0 < ((dcfProjectAux { ins with wacc := w1 }
      (lastStmt data.incomeStatements).revenue 1 ins.projectionYears).1.getLastD
      DCFProjection.zero).fcf * (1 + ins.terminalGrowth) := mul_pos hlastpos hgm
  have hTV : ((dcfProjectAux { ins with wacc := w1 }
        (lastStmt data.incomeStatements).revenue 1 ins.projectionYears).1.getLastD
        DCFProjection.zero).fcf * (1 + ins.terminalGrowth) /
        ((w2 - ins.terminalGrowth) * (1 + w2) ^ ins.projectionYears) <
      ((dcfProjectAux { ins with wacc := w1 }
        (lastStmt data.incomeStatements).revenue 1 ins.projectionYears).1.getLastD
        DCFProjection.zero).fcf * (1 + ins.terminalGrowth) /
        ((w1 - ins.terminalGrowth) * (1 + w1) ^ ins.projectionYears) :=
    div_lt_div_of_pos_left hA hDpos hDlt
  have hEV : (dcfCalculate data { ins with wacc := w2 }).1.enterpriseValue <
      (dcfCalculate data { ins with wacc := w1 }).1.enterpriseValue := by
    show ((dcfProjectAux { ins with wacc := w2 }
        (lastStmt data.incomeStatements).revenue 1 ins.projectionYears).1).foldl
        (fun a p => a + p.presentValue) 0 +
        ((dcfProjectAux { ins with wacc := w2 }
          (lastStmt data.incomeStatements).revenue 1 ins.projectionYears).1.getLastD
          DCFProjection.zero).fcf * (1 + ins.terminalGrowth) / (w2 - ins.terminalGrowth) /
          (1 + w2) ^ ins.projectionYears <
        ((dcfProjectAux { ins with wacc := w1 }
        (lastStmt data.incomeStatements).revenue 1 ins.projectionYears).1).foldl
        (fun a p => a + p.presentValue) 0 +
        ((dcfProjectAux { ins with wacc := w1 }
          (lastStmt data.incomeStatements).revenue 1 ins.projectionYears).1.getLastD
          DCFProjection.zero).fcf * (1 + ins.terminalGrowth) / (w1 - ins.terminalGrowth) /
          (1 + w1) ^ ins.projectionYears
    rw [hlast, div_div, div_div]
    exact add_lt_add hsum hTV
  show ((dcfCalculate data { ins with wacc := w2 }).1.enterpriseValue -
      ((lastBal data.balanceSheets).totalDebt -
        (lastBal data.balanceSheets).cashAndEquivalents)) /
      data.profile.sharesOutstanding <
      ((dcfCalculate data { ins with wacc := w1 }).1.enterpriseValue -
      ((lastBal data.balanceSheets).totalDebt -
        (lastBal data.balanceSheets).cashAndEquivalents)) /
      data.profile.sharesOutstanding
  exact div_lt_div_of_pos_right (by linarith) hsh

/-- Claim C6 fails on the code as universally stated: on the snapshot
`dataNegRev`, whose latest revenue is negative, all projected FCFs are
negative and raising the WACC from 1 to 3 (all other inputs fixed) strictly
*increases* the implied share price. -/
theorem claim_C6_counterexample :
    insLeak.wacc < insLeakW3.wacc ∧
    insLeakW3 = { insLeak with wacc := insLeakW3.wacc } ∧
    (dcfCalculate dataNegRev insLeak).1.impliedSharePrice <
      (dcfCalculate dataNegRev insLeakW3).1.impliedSharePrice := by
  refine ⟨by norm_num [insLeak, insLeakW3], rfl, ?_⟩
  norm_num [dcfCalculate, dcfCalculateProjections, dcfProjectAux, dcfTerminalValue,
    dcfEnterpriseValue, jsOrIdx, lastStmt, lastBal, setLastRevenue, dataNegRev,
    insLeak, insLeakW3, DCFProjection.zero]

/-- Witness for the amended C6 theorem on the positive-revenue snapshot
`dataLeak`: raising the WACC from 1 to 3 strictly lowers the implied price. -/
theorem claim_C6_price_strictly_decreasing_in_wacc_witness :
    (dcfCalculate dataLeak { insLeak with wacc := 3 }).1.impliedSharePrice <
      (dcfCalculate dataLeak { insLeak with wacc := 1 }).1.impliedSharePrice := by
  have h := claim_C6_price_strictly_decreasing_in_wacc dataLeak insLeak 1 3
    (by norm_num [insLeak]) (by norm_num [dataLeak]) (by norm_num) (by norm_num)
    (by norm_num [insLeak]) (by norm_num [insLeak]) ?hfcf
  · exact h
  case hfcf =>
    intro p hp
    simp only [dcfCalculate, dcfCalculateProjections, dcfProjectAux, jsOrIdx,
      lastStmt, dataLeak, insLeak] at hp
    norm_num at hp
    rcases hp with h | h | h | h | h <;> rw [h] <;> norm_num

end EquityVal
